import Mathlib

/-!
Shallow embedding of `src/SanAndreasTheDefinitiveEditionDemake.py`
(version 2 of the repository, the edition every claim cites).

Conventions used throughout:
* Python ints are modelled as `Int`; `stamina` is modelled as `ℚ`
  because `Vehicle.move` subtracts `0.5` from it (the reachable values
  are all multiples of `1/2`, on which Python float arithmetic is
  exact, so `ℚ` is a faithful model).
* Python object identity inside `game_map.objects` is modelled by the
  position (index) of an entry in the `objects` list; the auxiliary
  dictionaries `self.npcs`, `self.enemies`, `self.shops`,
  `self.vehicles` alias the very same objects, so each entity is
  stored once in `objects` together with its dictionary key, and the
  dictionaries are derived views (`Game.enemyKeys` below).
  `self.items` is written by the source but never read, so it has no
  counterpart here.
* Mission objects are immutable and come from the single table
  `self.missions`, so mission references are modelled by value.
* The occupant of a vehicle can only ever be the player (`Vehicle.enter`
  is only reached from `handle_input` with the player), so the
  occupant reference is modelled by the occupant's name, exactly what
  `Vehicle.to_dict` stores.
* Console output (`print`) has no state effect and is dropped; ANSI
  colour wrappers around the one-character glyphs are presentation
  only and the glyphs are kept as plain strings.
-/

namespace SA

/-- MAP_WIDTH constant from the source. -/
def MAP_WIDTH : Int := 80

/-- MAP_HEIGHT constant from the source. -/
def MAP_HEIGHT : Int := 25

/-- VISION_RADIUS constant from the source. -/
def VISION_RADIUS : Int := 8

/-- MAX_WANTED_LEVEL constant from the source. -/
def MAX_WANTED_LEVEL : Int := 5

/-- Glyph constants (colour escape codes omitted, presentation only). -/
def PLAYER_CHAR : String := "C"

def NPC_CHAR : String := "N"

def ITEM_CHAR : String := "I"

def SHOP_CHAR : String := "S"

def ENEMY_CHAR : String := "E"

def VEHICLE_CHAR : String := "V"

def POLICE_CHAR : String := "P"

def BIG_SMOKE_CHAR0 : String := "B"

/-- The `clamp` utility of the source, on integers. -/
def clamp (value lo hi : Int) : Int := max lo (min value hi)

/-- The `clamp` utility of the source, on rationals (used for stamina,
which the source mixes with the float literal `0.5`). -/
def clampQ (value lo hi : ℚ) : ℚ := max lo (min value hi)

/-- Variant payload of an `Item`: the subclass-specific fields of
`Item`, `Weapon`, `HealthPack`, `MoneyBundle`, `Food`, `Drink`. -/
inductive ItemKind where
  | plain
  | weapon (damage : Int)
  | healthPack (heal_amount : Int)
  | moneyBundle (amount : Int)
  | food (hunger_restore : Int)
  | drink (thirst_restore : Int)
deriving DecidableEq

/-- An `Item` (any variant): the shared `GameObject`+`Item` fields plus
the variant payload. -/
structure Item where
  x : Int
  y : Int
  char : String
  name : String
  description : String
  value : Int
  kind : ItemKind
deriving DecidableEq

/-- The objective closures used by `_initialize_missions`: the only
objective functions the source ever creates test for an inventory item
of a given class and name, so they embed as this small inductive. -/
inductive Objective where
  | hasWeaponNamed (s : String)
  | hasMoneyBundleNamed (s : String)
deriving DecidableEq

/-- A `Mission` record. `objective_func` is the closure embedded as an
`Objective`; the rest mirrors `Mission.__init__`. -/
structure Mission where
  name : String
  description : String
  objective : Objective
  reward_money : Int
  reward_item : Option Item
  prerequisite_missions : List String
deriving DecidableEq

/-- Base `Character` class fields (`Character.__init__`).  Used directly
for the statement of the `take_damage` contract; `Player`, `NPC` and
`Enemy` below repeat these fields flat, as Python instances do.
`current_weapon` is a reference to an item of the inventory, modelled
as its index. -/
structure Character where
  x : Int
  y : Int
  char : String
  name : String
  health : Int
  max_health : Int
  inventory : List Item
  money : Int
  stamina : ℚ
  max_stamina : ℚ
  current_weapon : Option Nat
deriving DecidableEq

/-- Core of `Character.take_damage`: subtract, floor at 0, report
`health == 0`. Shared by every class that inherits the method. -/
def takeDamageCore (health amount : Int) : Int × Bool :=
  let h := health - amount
  let h := if h < 0 then 0 else h
  (h, h == 0)

/-- The method `Character.take_damage` itself. -/
def Character.take_damage (c : Character) (amount : Int) : Character × Bool :=
  let r := takeDamageCore c.health amount
  ({ c with health := r.1 }, r.2)

/-- The method `Character.heal`. -/
def Character.heal (c : Character) (amount : Int) : Character :=
  { c with health := clamp (c.health + amount) 0 c.max_health }

/-- A `Player` instance: `Character` fields plus the `Player.__init__`
extras.  `current_vehicle` holds the name of the vehicle the player is
in (vehicle names are unique in every reachable world);
`current_mission` holds the mission by value (missions are immutable
and come from the one mission table). -/
structure Player where
  x : Int
  y : Int
  char : String
  name : String
  health : Int
  max_health : Int
  inventory : List Item
  money : Int
  stamina : ℚ
  max_stamina : ℚ
  current_weapon : Option Nat
  discovered_map : List (List Bool)
  missions_completed : List String
  current_mission : Option Mission
  wanted_level : Int
  hunger : Int
  thirst : Int
  driving_skill : Int
  weapon_skill : Int
  current_vehicle : Option String
deriving DecidableEq

/-- An `NPC` instance (`BigSmoke` is flagged by `bigSmoke`; its second
tile is always `(x+1, y)`, as both `BigSmoke.__init__` and
`BigSmoke.from_dict` set `char2_x = x + 1`, `char2_y = y`, and nothing
ever moves a Big Smoke). -/
structure NPC where
  x : Int
  y : Int
  char : String
  name : String
  health : Int
  max_health : Int
  inventory : List Item
  money : Int
  stamina : ℚ
  max_stamina : ℚ
  current_weapon : Option Nat
  dialogue : String
  mission_offered : Option Mission
  mission_completed : Bool
  bigSmoke : Bool
deriving DecidableEq

/-- An `Enemy` instance. -/
structure Enemy where
  x : Int
  y : Int
  char : String
  name : String
  health : Int
  max_health : Int
  inventory : List Item
  money : Int
  stamina : ℚ
  max_stamina : ℚ
  current_weapon : Option Nat
  damage : Int
  faction : String
deriving DecidableEq

/-- A `Shop` instance; `inventory` is the list of `(item, price)`
pairs. -/
structure Shop where
  x : Int
  y : Int
  char : String
  name : String
  inventory : List (Item × Int)
  shop_type : String
deriving DecidableEq

/-- A `Vehicle` instance; `occupant` stores the occupant's name (only
the player ever occupies a vehicle), mirroring what `to_dict` saves. -/
structure Vehicle where
  x : Int
  y : Int
  char : String
  name : String
  health : Int
  max_health : Int
  speed : Int
  occupant : Option String
deriving DecidableEq

/-- One entry of `game_map.objects`.  The player's data lives in
`Game.player`; `mplayer` is the alias of that object inside the list.
NPCs, enemies, shops and vehicles are stored here together with their
key in the corresponding `Game` dictionary (`self.npcs` etc.), since in
the source the dictionary values and the list entries are the same
objects. -/
inductive MapObj where
  | mplayer
  | mnpc (key : String) (n : NPC)
  | mitem (it : Item)
  | mshop (key : String) (s : Shop)
  | menemy (key : String) (e : Enemy)
  | mvehicle (key : String) (v : Vehicle)
deriving DecidableEq

/-- The whole mutable game state (`Game` plus its `GameMap`; width and
height are the fixed constants). -/
structure Game where
  player : Player
  objects : List MapObj
  game_time : Int
  running : Bool
  missions : List (String × Mission)
deriving DecidableEq

/-- Python `obj.x` for a `game_map.objects` entry (for `mplayer` it
reads the player object). -/
def MapObj.px (p : Player) : MapObj → Int
  | .mplayer => p.x
  | .mnpc _ n => n.x
  | .mitem it => it.x
  | .mshop _ s => s.x
  | .menemy _ e => e.x
  | .mvehicle _ v => v.x

/-- Python `obj.y` for a `game_map.objects` entry. -/
def MapObj.py (p : Player) : MapObj → Int
  | .mplayer => p.y
  | .mnpc _ n => n.y
  | .mitem it => it.y
  | .mshop _ s => s.y
  | .menemy _ e => e.y
  | .mvehicle _ v => v.y

/-- Whether this objects entry is an `isinstance(obj, BigSmoke)`. -/
def MapObj.isBigSmoke : MapObj → Bool
  | .mnpc _ n => n.bigSmoke
  | _ => false

/-- `GameMap.get_object_at`: first object in list order at `(x, y)`,
with Big Smoke's dual-tile footprint. -/
def getObjectAt (g : Game) (x y : Int) : Option MapObj :=
  g.objects.find? fun obj =>
    match obj with
    | .mnpc _ n =>
        if n.bigSmoke then
          (n.x == x && n.y == y) || (n.x + 1 == x && n.y == y)
        else
          n.x == x && n.y == y
    | o => o.px g.player == x && o.py g.player == y

/-- Like `getObjectAt` but also returning the index of the found entry
(the index is the model of the object's identity, used when the found
object is subsequently mutated or removed). -/
def getObjectIdxAt (g : Game) (x y : Int) : Option (Nat × MapObj) :=
  g.objects.enum.find? fun oi =>
    match oi.2 with
    | .mnpc _ n =>
        if n.bigSmoke then
          (n.x == x && n.y == y) || (n.x + 1 == x && n.y == y)
        else
          n.x == x && n.y == y
    | o => o.px g.player == x && o.py g.player == y

/-- Derived view of the `self.enemies` dictionary (insertion order). -/
def Game.enemyKeys (g : Game) : List String :=
  g.objects.filterMap fun o =>
    match o with
    | .menemy k _ => some k
    | _ => none

/-- Number of entries of the derived `self.enemies` dictionary. -/
def Game.numEnemies (g : Game) : Nat := g.enemyKeys.length

end SA

namespace SA

/-- Whether an item `isinstance(..., Weapon)`. -/
def Item.isWeapon (it : Item) : Bool :=
  match it.kind with
  | .weapon _ => true
  | _ => false

/-- Whether an item `isinstance(..., MoneyBundle)`. -/
def Item.isMoneyBundle (it : Item) : Bool :=
  match it.kind with
  | .moneyBundle _ => true
  | _ => false

/-- The objective closures of `_initialize_missions`, evaluated on a
player (`any(isinstance(item, C) and item.name == N for item in
player.inventory)`). -/
def Objective.holds : Objective → Player → Bool
  | .hasWeaponNamed s, p => p.inventory.any fun it => it.isWeapon && it.name == s
  | .hasMoneyBundleNamed s, p => p.inventory.any fun it => it.isMoneyBundle && it.name == s

/-- `Mission.is_completed`. -/
def Mission.is_completed (m : Mission) (p : Player) : Bool := m.objective.holds p

/-- `Mission.complete`: money reward plus optional item reward
(`Character.add_item` appends to the inventory). -/
def Mission.complete (m : Mission) (p : Player) : Player :=
  let p := { p with money := p.money + m.reward_money }
  match m.reward_item with
  | some it => { p with inventory := p.inventory ++ [it] }
  | none => p

/-- Damage dealt by `Character.f` for the player: the equipped weapon's
damage, else the fist default 5.  (`equip_weapon` only ever stores a
`Weapon`, so the non-weapon fallback is unreachable.) -/
def Player.attackDamage (p : Player) : Int :=
  match p.current_weapon.bind fun i => p.inventory.get? i with
  | some it =>
      match it.kind with
      | .weapon dmg => dmg
      | _ => 5
  | none => 5

/-- Damage dealt by `Character.f` for an enemy: note the source's
`Enemy.take_turn` calls the inherited `f`, which uses the equipped
weapon or fists — the `Enemy.damage` attribute is never consulted by
`f`. -/
def enemyAttackDamage (e : Enemy) : Int :=
  match e.current_weapon.bind fun i => e.inventory.get? i with
  | some it =>
      match it.kind with
      | .weapon dmg => dmg
      | _ => 5
  | none => 5

/-- Offsets `range(-VISION_RADIUS, VISION_RADIUS + 1)`. -/
def visionOffsets : List Int := (List.range 17).map fun i => (i : Int) - 8

/-- Set `discovered_map[y][x] = True` (callers have checked bounds). -/
def markCell (m : List (List Bool)) (x y : Int) : List (List Bool) :=
  m.set y.toNat ((m.getD y.toNat []).set x.toNat true)

/-- `Player.discover_area`. -/
def discoverArea (p : Player) : Player :=
  { p with discovered_map :=
      visionOffsets.foldl (fun m dy =>
        visionOffsets.foldl (fun m dx =>
          let nx := p.x + dx
          let ny := p.y + dy
          if 0 ≤ nx ∧ nx < MAP_WIDTH ∧ 0 ≤ ny ∧ ny < MAP_HEIGHT ∧
              dx * dx + dy * dy ≤ VISION_RADIUS * VISION_RADIUS then
            markCell m nx ny
          else m) m) p.discovered_map }

/-- Collision test of the walking branch of `Player.move` for a single
`objects` entry: the mover itself is skipped (`obj != self`;
`current_vehicle` is `None` on this branch), a Big Smoke blocks both
tiles, every other object blocks its own cell. -/
def blocksPlayerWalk (p : Player) (nx ny : Int) (obj : MapObj) : Bool :=
  match obj with
  | .mplayer => false
  | .mnpc _ n =>
      if n.bigSmoke then (nx == n.x && ny == n.y) || (nx == n.x + 1 && ny == n.y)
      else nx == n.x && ny == n.y
  | o => nx == o.px p && ny == o.py p

/-- Walking branch of `Player.move` (`current_vehicle` is `None`):
bounds check, then the collision loop, then the move plus the stamina
cost of 1.  Returns the new state and the boolean the method returns. -/
def playerWalkMove (g : Game) (dx dy : Int) : Game × Bool :=
  let p := g.player
  let nx := p.x + dx
  let ny := p.y + dy
  if ¬(0 ≤ nx ∧ nx < MAP_WIDTH ∧ 0 ≤ ny ∧ ny < MAP_HEIGHT) then (g, false)
  else if g.objects.any (blocksPlayerWalk p nx ny) then (g, false)
  else
    let p' := { p with x := nx, y := ny, stamina := clampQ (p.stamina - 1) 0 p.max_stamina }
    ({ g with player := p' }, true)

/-- Collision test of `Vehicle.move` for the entry at index `idx`: the
vehicle itself (index `vi`) and its occupant (the player alias — the
only possible occupant is the player) are skipped. -/
def blocksVehicle (p : Player) (occupied : Bool) (vi : Nat) (nx ny : Int)
    (idx : Nat) (obj : MapObj) : Bool :=
  if idx == vi then false
  else
    match obj with
    | .mplayer => if occupied then false else nx == p.x && ny == p.y
    | .mnpc _ n =>
        if n.bigSmoke then (nx == n.x && ny == n.y) || (nx == n.x + 1 && ny == n.y)
        else nx == n.x && ny == n.y
    | o => nx == o.px p && ny == o.py p

/-- `Vehicle.move` for the vehicle stored at `objects` index `vi`:
bounds check, collision loop, then the vehicle moves and, when
occupied, the occupant (the player) moves with it at a stamina cost of
`0.5`. -/
def vehicleMoveAt (g : Game) (vi : Nat) (dx dy : Int) : Game × Bool :=
  match g.objects.get? vi with
  | some (.mvehicle k v) =>
      let p := g.player
      let nx := v.x + dx
      let ny := v.y + dy
      if ¬(0 ≤ nx ∧ nx < MAP_WIDTH ∧ 0 ≤ ny ∧ ny < MAP_HEIGHT) then (g, false)
      else if g.objects.enum.any (fun oi =>
          blocksVehicle p v.occupant.isSome vi nx ny oi.1 oi.2) then (g, false)
      else
        let objects' := g.objects.set vi (.mvehicle k { v with x := nx, y := ny })
        if v.occupant.isSome then
          let p' := { p with x := nx, y := ny, stamina := clampQ (p.stamina - 1/2) 0 p.max_stamina }
          ({ g with objects := objects', player := p' }, true)
        else ({ g with objects := objects' }, true)
  | _ => (g, false)

/-- `Player.move`: when driving, delegate to the current vehicle (the
reference is the unique map vehicle with that name); else walk. -/
def playerMove (g : Game) (dx dy : Int) : Game × Bool :=
  match g.player.current_vehicle with
  | some vname =>
      match g.objects.enum.find? (fun oi =>
          match oi.2 with
          | .mvehicle _ v => v.name == vname
          | _ => false) with
      | some (vi, _) => vehicleMoveAt g vi dx dy
      | none => (g, false)
  | none => playerWalkMove g dx dy

/-- The occupancy test shared by `Enemy.move_randomly` and
`Enemy.move_towards`: any object other than the mover whose primary
position equals the target blocks (note: no Big Smoke dual-tile
handling here, unlike the player/vehicle collision loops). -/
def enemyOccupiedAt (g : Game) (selfIdx : Nat) (nx ny : Int) : Bool :=
  g.objects.enum.any fun oi =>
    oi.1 != selfIdx && oi.2.px g.player == nx && oi.2.py g.player == ny

/-- One candidate step of an enemy (the body shared by
`move_randomly` and `move_towards`): in-bounds and unoccupied moves
the enemy, otherwise the step is refused. -/
def enemyTryStepAt (g : Game) (selfIdx : Nat) (dx dy : Int) : Option Game :=
  match g.objects.get? selfIdx with
  | some (.menemy k e) =>
      let nx := e.x + dx
      let ny := e.y + dy
      if 0 ≤ nx ∧ nx < MAP_WIDTH ∧ 0 ≤ ny ∧ ny < MAP_HEIGHT then
        if enemyOccupiedAt g selfIdx nx ny then none
        else
          let objects' := g.objects.set selfIdx (.menemy k { e with x := nx, y := ny })
          some { g with objects := objects' }
      else none
  | _ => none

/-- `Enemy.move_randomly`, with the result of `random.shuffle` on the
four unit moves supplied as `cands`: try each candidate in order, stop
at the first success. -/
def moveRandomly (g : Game) (selfIdx : Nat) (cands : List (Int × Int)) : Game × Bool :=
  match cands with
  | [] => (g, false)
  | d :: rest =>
      match enemyTryStepAt g selfIdx d.1 d.2 with
      | some g' => (g', true)
      | none => moveRandomly g selfIdx rest

/-- `Enemy.move_towards`: one per-axis sign step toward the target. -/
def moveTowards (g : Game) (selfIdx : Nat) (tx ty : Int) : Game × Bool :=
  match g.objects.get? selfIdx with
  | some (.menemy _ e) =>
      let dx : Int := if tx > e.x then 1 else if tx < e.x then -1 else 0
      let dy : Int := if ty > e.y then 1 else if ty < e.y then -1 else 0
      match enemyTryStepAt g selfIdx dx dy with
      | some g' => (g', true)
      | none => (g, false)
  | _ => (g, false)

/-- `Vehicle.enter` (the entering character is always the player). -/
def Vehicle.enter (v : Vehicle) (p : Player) : Vehicle × Player × Bool :=
  if v.occupant = none then
    ({ v with occupant := some p.name }, { p with current_vehicle := some v.name }, true)
  else (v, p, false)

/-- `Vehicle.exit`: clear both link directions, then place the
character at `(x + 1, y)` — with no bounds or occupancy check. -/
def Vehicle.exit (v : Vehicle) (p : Player) : Vehicle × Player × Bool :=
  if v.occupant = some p.name then
    ({ v with occupant := none },
     { p with current_vehicle := none, x := v.x + 1, y := v.y }, true)
  else (v, p, false)

end SA

namespace SA

/-- Mission name literal (the apostrophe is written as an escape). -/
def sweetMissionName : String := "Sweet\x27s Mission"

/-- Mission name literal. -/
def ryderMissionName : String := "Ryder\x27s Mission"

/-- Mission name literal. -/
def bigSmokeMissionName : String := "Big Smoke\x27s Mission"

/-- Python's `str.lower()` on the command strings the game reads (all
ASCII), written with structural recursion so that it evaluates inside
the kernel. -/
def strLower (s : String) : String := ⟨s.data.map Char.toLower⟩

/-- `NPC.talk` (the plain variant).  `ts` is the pending input stream
(consumed by the accept prompt); the differing no-op tails
(already-on-this-mission, other-active-mission) all leave the state
unchanged.  An exhausted input stream ends the observed transcript. -/
def npcTalkPlain (ts : List String) (n : NPC) (p : Player) : NPC × Player × List String :=
  match n.mission_offered, n.mission_completed with
  | some m, false =>
      if m.is_completed p then
        let p := m.complete p
        let p := { p with missions_completed := p.missions_completed ++ [m.name],
                          current_mission := none }
        ({ n with mission_completed := true }, p, ts)
      else if p.current_mission = none then
        match ts with
        | choice :: rest =>
            if strLower choice == "yes" then (n, { p with current_mission := some m }, rest)
            else (n, p, rest)
        | [] => (n, p, [])
      else (n, p, ts)
  | _, _ => (n, p, ts)

/-- `BigSmoke.talk`.  The source reads `self.mission_offered.name` in
the accept prompt, which would raise `AttributeError` were the mission
reference `None`; every reachable Big Smoke carries a mission, so the
`none` case is modelled as the no-op it cannot reach. -/
def bigSmokeTalk (ts : List String) (n : NPC) (p : Player) : NPC × Player × List String :=
  if sweetMissionName ∈ p.missions_completed ∧ ryderMissionName ∈ p.missions_completed then
    if ¬n.mission_completed then
      if p.inventory.any (fun it => it.isMoneyBundle && it.name == "Cash Bundle") then
        match n.mission_offered, n.mission_completed with
        | some m, false =>
            if m.is_completed p then
              let p := m.complete p
              let p := { p with missions_completed := p.missions_completed ++ [m.name],
                                current_mission := none }
              ({ n with mission_completed := true }, p, ts)
            else (n, p, ts)
        | _, _ => (n, p, ts)
      else
        if p.current_mission = none then
          match n.mission_offered with
          | some m =>
              match ts with
              | choice :: rest =>
                  if strLower choice == "yes" then
                    (n, { p with current_mission := some m }, rest)
                  else (n, p, rest)
              | [] => (n, p, [])
          | none => (n, p, ts)
        else (n, p, ts)
    else (n, p, ts)
  else (n, p, ts)

/-- Dynamic dispatch of `talk` on the two NPC classes. -/
def npcTalk (ts : List String) (n : NPC) (p : Player) : NPC × Player × List String :=
  if n.bigSmoke then bigSmokeTalk ts n p else npcTalkPlain ts n p

/-- The NPC branch of the `'e'` handler in `Game.handle_input`: the
prerequisite gate, then `talk`.  The last component reports the
`interacted` flag; with an unmet prerequisite the source prints a
blocking message, leaves `interacted` false and continues its
neighbour scan (its nested `if not obj.mission_offered` fallback is
dead code). -/
def npcGatedInteract (ts : List String) (n : NPC) (p : Player) :
    NPC × Player × List String × Bool :=
  match n.mission_offered with
  | some m =>
      if m.prerequisite_missions.all (fun pre => p.missions_completed.contains pre) then
        let r := npcTalk ts n p
        (r.1, r.2.1, r.2.2, true)
      else (n, p, ts, false)
  | none =>
      let r := npcTalk ts n p
      (r.1, r.2.1, r.2.2, true)

/-- `Shop.enter`: the menu loop, driven by the remaining input stream;
`'0'` leaves the shop, a valid affordable index buys (append to
inventory, subtract the price), anything else reports and loops. -/
def shopLoop : List String → Shop → Player → Player × List String
  | [], _, p => (p, [])
  | choice :: ts, s, p =>
      if choice == "0" then (p, ts)
      else
        match choice.toInt? with
        | none => shopLoop ts s p
        | some c =>
            if 1 ≤ c ∧ c ≤ s.inventory.length then
              match s.inventory.get? (c - 1).toNat with
              | some ip =>
                  if p.money ≥ ip.2 then
                    let p' := { p with money := p.money - ip.2, inventory := p.inventory ++ [ip.1] }
                    shopLoop ts s p'
                  else shopLoop ts s p
              | none => shopLoop ts s p
            else shopLoop ts s p

/-- `Character.remove_item` for the inventory element at index `i`
(Python's `list.remove` removes exactly the selected object by
identity): the equipped-weapon reference survives unless it was the
removed element, so the index form unequips on equality and shifts
indices above the removal point. -/
def removeItemAt (p : Player) (i : Nat) : Player :=
  let cw := match p.current_weapon with
    | some j => if j == i then none else if j > i then some (j - 1) else some j
    | none => none
  { p with inventory := p.inventory.eraseIdx i, current_weapon := cw }

/-- The `'u'` (use item) handler: menu over the inventory; health packs
heal and are consumed, weapons are equipped, food and drink restore
and are consumed, anything else only prints. -/
def useItemHandler (ts : List String) (g : Game) : Game × List String :=
  let p := g.player
  if p.inventory.isEmpty then (g, ts)
  else
    match ts with
    | [] => (g, [])
    | choice :: rest =>
        if choice == "0" then (g, rest)
        else
          match choice.toInt? with
          | none => (g, rest)
          | some c =>
              if 1 ≤ c ∧ c ≤ p.inventory.length then
                match p.inventory.get? (c - 1).toNat with
                | some it =>
                    match it.kind with
                    | .healthPack heal =>
                        let p := { p with health := clamp (p.health + heal) 0 p.max_health }
                        ({ g with player := removeItemAt p (c - 1).toNat }, rest)
                    | .weapon _ =>
                        ({ g with player := { p with current_weapon := some (c - 1).toNat } }, rest)
                    | .food hr =>
                        let p := { p with hunger := clamp (p.hunger + hr) 0 100 }
                        ({ g with player := removeItemAt p (c - 1).toNat }, rest)
                    | .drink tr =>
                        let p := { p with thirst := clamp (p.thirst + tr) 0 100 }
                        ({ g with player := removeItemAt p (c - 1).toNat }, rest)
                    | _ => (g, rest)
                | none => (g, rest)
              else (g, rest)

/-- `Player.add_wanted_level`. -/
def addWantedLevel (p : Player) (amount : Int) : Player :=
  { p with wanted_level := clamp (p.wanted_level + amount) 0 MAX_WANTED_LEVEL }

/-- `Player.reduce_wanted_level`. -/
def reduceWantedLevel (p : Player) (amount : Int) : Player :=
  { p with wanted_level := clamp (p.wanted_level - amount) 0 MAX_WANTED_LEVEL }

/-- The 8-neighbour scan order of `handle_input` (`for dy in
range(-1,2): for dx in range(-1,2)`, skipping `(0,0)`), as `(dx, dy)`
pairs. -/
def neighborOffsets : List (Int × Int) :=
  [(-1, -1), (0, -1), (1, -1), (-1, 0), (1, 0), (-1, 1), (0, 1), (1, 1)]

/-- The target-selection scan of the `'f'` handler: the first neighbour
offset at which `get_object_at` yields an `Enemy` instance, together
with that object's list index (its identity) and key. -/
def attackScan (g : Game) : Option (Nat × String × Enemy) :=
  neighborOffsets.findSome? fun d =>
    match getObjectIdxAt g (g.player.x + d.1) (g.player.y + d.2) with
    | some (i, .menemy k e) => some (i, k, e)
    | _ => none

/-- The `'f'` (attack) handler: one `player.f(target)` exchange; a
defeated target is removed from the map and from the enemies
dictionary (the same object), and the wanted level rises by 2 for the
`"Police"` faction, 1 otherwise.  No money changes hands. -/
def attackHandler (g : Game) : Game :=
  match attackScan g with
  | none => g
  | some (i, _, e) =>
      let dmg := g.player.attackDamage
      let r := takeDamageCore e.health dmg
      if r.2 then
        let g := { g with objects := g.objects.eraseIdx i }
        if e.faction == "Police" then
          { g with player := addWantedLevel g.player 2 }
        else
          { g with player := addWantedLevel g.player 1 }
      else
        match g.objects.get? i with
        | some (.menemy k _) =>
            { g with objects := g.objects.set i (.menemy k { e with health := r.1 }) }
        | _ => g

/-- The `'e'` (interact) neighbour scan of `handle_input`: first
interactable in scan order wins; NPCs pass the prerequisite gate,
items are picked up (and leave the map), shops open their menu,
an empty vehicle is entered when the player is on foot. -/
def interactScan (ts : List String) (g : Game) : List (Int × Int) → Game × List String × Bool
  | [] => (g, ts, false)
  | d :: rest =>
      match getObjectIdxAt g (g.player.x + d.1) (g.player.y + d.2) with
      | some (i, .mnpc k n) =>
          let r := npcGatedInteract ts n g.player
          if r.2.2.2 then
            ({ g with player := r.2.1, objects := g.objects.set i (.mnpc k r.1) }, r.2.2.1, true)
          else interactScan ts g rest
      | some (i, .mitem it) =>
          let p' := { g.player with inventory := g.player.inventory ++ [it] }
          ({ g with player := p', objects := g.objects.eraseIdx i }, ts, true)
      | some (_, .mshop _ s) =>
          let r := shopLoop ts s g.player
          ({ g with player := r.1 }, r.2, true)
      | some (i, .mvehicle k v) =>
          if g.player.current_vehicle = none then
            let r := v.enter g.player
            if r.2.2 then
              ({ g with objects := g.objects.set i (.mvehicle k r.1), player := r.2.1 }, ts, true)
            else interactScan ts g rest
          else interactScan ts g rest
      | _ => interactScan ts g rest

/-- The `'x'` (exit vehicle) handler. -/
def exitVehicleHandler (g : Game) : Game :=
  match g.player.current_vehicle with
  | some vname =>
      match g.objects.enum.find? (fun oi =>
          match oi.2 with
          | .mvehicle _ v => v.name == vname
          | _ => false) with
      | some (vi, .mvehicle k v) =>
          let r := v.exit g.player
          { g with objects := g.objects.set vi (.mvehicle k r.1), player := r.2.1 }
      | _ => g
  | none => g

/-- `Player.update_needs`. -/
def updateNeeds (p : Player) : Player :=
  let p := { p with hunger := clamp (p.hunger - 1) 0 100, thirst := clamp (p.thirst - 1) 0 100 }
  if p.hunger ≤ 0 ∨ p.thirst ≤ 0 then
    { p with health := (takeDamageCore p.health 2).1 }
  else p

end SA

namespace SA

/-- A fresh player, as built by `Player.__init__(x, y)`. -/
def playerInit (x y : Int) : Player :=
  { x := x, y := y, char := PLAYER_CHAR, name := "CJ",
    health := 100, max_health := 100, inventory := [], money := 500,
    stamina := 100, max_stamina := 100, current_weapon := none,
    discovered_map := List.replicate 25 (List.replicate 80 false),
    missions_completed := [], current_mission := none,
    wanted_level := 0, hunger := 100, thirst := 100,
    driving_skill := 1, weapon_skill := 1, current_vehicle := none }

/-- A fresh regular NPC, as built by `NPC.__init__`. -/
def npcInit (x y : Int) (name dialogue ch : String) : NPC :=
  { x := x, y := y, char := ch, name := name,
    health := 50, max_health := 50, inventory := [], money := 0,
    stamina := 100, max_stamina := 100, current_weapon := none,
    dialogue := dialogue, mission_offered := none,
    mission_completed := false, bigSmoke := false }

/-- A fresh Big Smoke, as built by `BigSmoke.__init__(x, y)`. -/
def bigSmokeInit (x y : Int) : NPC :=
  { npcInit x y "Big Smoke" "You picked the wrong house, fool!" BIG_SMOKE_CHAR0 with
    bigSmoke := true }

/-- Sweet's mission (`_initialize_missions`). -/
def sweetMission : Mission :=
  { name := sweetMissionName,
    description := "Find the Pistol and bring it back to Sweet.",
    objective := .hasWeaponNamed "Pistol",
    reward_money := 100, reward_item := none, prerequisite_missions := [] }

/-- Ryder's mission. -/
def ryderMission : Mission :=
  { name := ryderMissionName,
    description := "Find the Shotgun and show it to Ryder.",
    objective := .hasWeaponNamed "Shotgun",
    reward_money := 150, reward_item := none,
    prerequisite_missions := [sweetMissionName] }

/-- Big Smoke's mission. -/
def bigSmokeMission : Mission :=
  { name := bigSmokeMissionName,
    description := "Collect the Cash Bundle for Big Smoke.",
    objective := .hasMoneyBundleNamed "Cash Bundle",
    reward_money := 200, reward_item := none,
    prerequisite_missions := [sweetMissionName, ryderMissionName] }

/-- Short-hand for building map items placed by
`_initialize_game_objects` and the shop catalogues. -/
def mkItem (x y : Int) (name description : String) (value : Int) (kind : ItemKind) : Item :=
  { x := x, y := y, char := ITEM_CHAR, name := name,
    description := description, value := value, kind := kind }

/-- A fresh enemy, as built by `Enemy.__init__`. -/
def enemyInit (x y : Int) (name : String) (health damage : Int) (faction : String) : Enemy :=
  { x := x, y := y, char := ENEMY_CHAR, name := name,
    health := health, max_health := health, inventory := [], money := 0,
    stamina := 100, max_stamina := 100, current_weapon := none,
    damage := damage, faction := faction }

/-- A fresh vehicle, as built by `Vehicle.__init__`. -/
def vehicleInit (x y : Int) (name : String) (health speed : Int) : Vehicle :=
  { x := x, y := y, char := VEHICLE_CHAR, name := name,
    health := health, max_health := health, speed := speed, occupant := none }

/-- Sweet, with his mission attached (`_initialize_game_objects` and
`_initialize_missions`). -/
def sweetNPC : NPC :=
  { npcInit 5 5 "Sweet" "Hey CJ, long time no see! We got some business to handle." NPC_CHAR with
    mission_offered := some sweetMission }

/-- Ryder, with his mission attached. -/
def ryderNPC : NPC :=
  { npcInit 10 10 "Ryder" "Yo, CJ! You still busta? Go get me some spray cans." NPC_CHAR with
    mission_offered := some ryderMission }

/-- Big Smoke at `(20, 15)` (second tile `(21, 15)`), with his mission
attached. -/
def bigSmokeNPC : NPC :=
  { bigSmokeInit 20 15 with mission_offered := some bigSmokeMission }

/-- The Ammu-Nation shop and its catalogue. -/
def ammuNationShop : Shop :=
  { x := 70, y := 5, char := SHOP_CHAR, name := "Ammu-Nation",
    inventory := [
      (mkItem 0 0 "Knife" "A sharp blade." 50 (.weapon 10), 50),
      (mkItem 0 0 "Uzi" "Fast firing submachine gun." 150 (.weapon 20), 150),
      (mkItem 0 0 "Large Health Pack" "Restores a lot of health." 75 (.healthPack 50), 75)],
    shop_type := "Ammu-Nation" }

/-- The Cluckin Bell shop and its catalogue. -/
def cluckinBellShop : Shop :=
  { x := 40, y := 2, char := SHOP_CHAR, name := "Cluckin\x27 Bell",
    inventory := [
      (mkItem 0 0 "Cluckin\x27 Bell Burger" "A greasy burger." 15 (.food 40), 15),
      (mkItem 0 0 "Sprunk" "Refreshing soda." 10 (.drink 30), 10)],
    shop_type := "Fast Food" }

/-- The freshly initialized world: `Game.__init__` together with
`_initialize_game_objects` and `_initialize_missions` (player starts at
the map centre `(40, 12)`; objects appear in insertion order). -/
def freshGame : Game :=
  { player := playerInit 40 12,
    objects := [
      .mplayer,
      .mnpc "sweet" sweetNPC,
      .mnpc "ryder" ryderNPC,
      .mnpc "big_smoke" bigSmokeNPC,
      .mitem (mkItem 2 2 "Pistol" "A basic handgun." 75 (.weapon 15)),
      .mitem (mkItem 75 20 "Shotgun" "Deals heavy damage up close." 200 (.weapon 30)),
      .mitem (mkItem 7 7 "Small Health Pack" "Restores a bit of health." 30 (.healthPack 25)),
      .mitem (mkItem 20 6 "Cash Bundle" "A stack of money." 200 (.moneyBundle 200)),
      .mshop "ammu_nation" ammuNationShop,
      .mshop "cluckin_bell" cluckinBellShop,
      .menemy "gangster1" (enemyInit 15 10 "Gangster" 40 10 "Ballaz"),
      .menemy "gangster2" (enemyInit 25 8 "Gangster" 40 10 "Vagos"),
      .menemy "police_officer" (enemyInit 78 2 "Police Officer" 60 15 "Police"),
      .mvehicle "green_sabre" (vehicleInit 30 10 "Green Sabre" 100 3),
      .mvehicle "police_car" (vehicleInit 75 15 "Police Car" 120 4)],
    game_time := 0,
    running := true,
    missions := [
      (sweetMissionName, sweetMission),
      (ryderMissionName, ryderMission),
      (bigSmokeMissionName, bigSmokeMission)] }

end SA

namespace SA

/-- Python exceptions that the deserialization code can raise; all of
them are swallowed by `load_game`'s `except` clauses. -/
inductive PyErr where
  | typeError
  | keyError
deriving DecidableEq

/-- Failures of opening/parsing the save file, matching `load_game`'s
three `except` clauses: `FileNotFoundError`, `json.JSONDecodeError`,
and any other read failure caught by the generic `except Exception`. -/
inductive FileErr where
  | fileNotFound
  | jsonDecode
  | unreadable
deriving DecidableEq

/-- A required dictionary access `data["k"]`: raises `KeyError` when
the key is absent. -/
def req {α : Type} (o : Option α) : Except PyErr α :=
  match o with
  | some a => .ok a
  | none => .error .keyError

/-- Heterogeneous Python value, used to model the positional argument
lists of constructor calls. -/
inductive PyVal where
  | int (i : Int)
  | str (s : String)
  | rat (q : ℚ)
deriving DecidableEq

/-- Serialized form of an item (`Item.to_dict` and subclasses); every
field is optional so that documents from older schema versions, which
lack newer fields, are expressible.  `ty` stands for the `"type"` tag
key. -/
structure ItemDict where
  x : Option Int
  y : Option Int
  char : Option String
  name : Option String
  description : Option String
  ty : Option String
  value : Option Int
  damage : Option Int
  heal_amount : Option Int
  amount : Option Int
  hunger_restore : Option Int
  thirst_restore : Option Int
deriving DecidableEq

/-- Serialized form of a character (`Character.to_dict` plus the
`Player`/`NPC`/`BigSmoke`/`Enemy` extras; unused extras stay `none`). -/
structure CharDict where
  x : Option Int
  y : Option Int
  char : Option String
  name : Option String
  ty : Option String
  health : Option Int
  max_health : Option Int
  money : Option Int
  stamina : Option ℚ
  max_stamina : Option ℚ
  inventory : Option (List ItemDict)
  current_weapon : Option String
  discovered_map : Option (List (List Bool))
  missions_completed : Option (List String)
  current_mission : Option String
  wanted_level : Option Int
  hunger : Option Int
  thirst : Option Int
  driving_skill : Option Int
  weapon_skill : Option Int
  current_vehicle : Option String
  dialogue : Option String
  mission_offered : Option String
  mission_completed : Option Bool
  char2_x : Option Int
  char2_y : Option Int
  damage : Option Int
  faction : Option String
deriving DecidableEq

/-- Serialized form of a shop. -/
structure ShopDict where
  x : Option Int
  y : Option Int
  char : Option String
  name : Option String
  ty : Option String
  inventory : Option (List (ItemDict × Int))
  shop_type : Option String
deriving DecidableEq

/-- Serialized form of a vehicle. -/
structure VehicleDict where
  x : Option Int
  y : Option Int
  char : Option String
  name : Option String
  ty : Option String
  health : Option Int
  max_health : Option Int
  speed : Option Int
  occupant : Option String
deriving DecidableEq

/-- The whole save document (`Game.save_game`'s `data` object); the
name-to-state mappings keep insertion order, as Python dicts do. -/
structure SaveDoc where
  version : Option Int
  game_time : Option Int
  player : CharDict
  npcs : List (String × CharDict)
  shops : List (String × ShopDict)
  enemies : List (String × CharDict)
  vehicles : List (String × VehicleDict)
  items_on_map : List ItemDict
deriving DecidableEq

/-- A positional call of the `Player` class.  `Player.__init__(self, x,
y)` declares exactly two parameters besides `self`, so any other
argument count raises `TypeError` (the well-typed two-argument shape is
the only one the source could ever build). -/
def callPlayerClass (args : List PyVal) : Except PyErr Player :=
  match args with
  | [.int x, .int y] => .ok (playerInit x y)
  | _ => .error .typeError

/-- A positional call of the `NPC` class.  `NPC.__init__(self, x, y,
name, dialogue, char=NPC_CHAR)` accepts four or five positional
arguments besides `self`; any other count raises `TypeError`. -/
def callNPCClass (args : List PyVal) : Except PyErr NPC :=
  match args with
  | [.int x, .int y, .str name, .str dialogue] => .ok (npcInit x y name dialogue NPC_CHAR)
  | [.int x, .int y, .str name, .str dialogue, .str ch] => .ok (npcInit x y name dialogue ch)
  | _ => .error .typeError

/-- `ItemFactory.create_item_from_dict`'s dispatch target for
`"Item"`: `Item.from_dict`. -/
def itemFromDict (d : ItemDict) : Except PyErr Item := do
  let x ← req d.x
  let y ← req d.y
  let nm ← req d.name
  let it := mkItem x y nm (d.description.getD "A generic item.") (d.value.getD 0) .plain
  pure { it with char := d.char.getD ITEM_CHAR }

/-- `Weapon.from_dict`. -/
def weaponFromDict (d : ItemDict) : Except PyErr Item := do
  let x ← req d.x
  let y ← req d.y
  let nm ← req d.name
  let it := mkItem x y nm (d.description.getD "A weapon.") (d.value.getD 0)
    (.weapon (d.damage.getD 1))
  pure { it with char := d.char.getD ITEM_CHAR }

/-- `HealthPack.from_dict`. -/
def healthPackFromDict (d : ItemDict) : Except PyErr Item := do
  let x ← req d.x
  let y ← req d.y
  let nm ← req d.name
  let it := mkItem x y nm (d.description.getD "A health pack.") (d.value.getD 0)
    (.healthPack (d.heal_amount.getD 25))
  pure { it with char := d.char.getD ITEM_CHAR }

/-- `MoneyBundle.from_dict` (the constructor sets `value = amount`). -/
def moneyBundleFromDict (d : ItemDict) : Except PyErr Item := do
  let x ← req d.x
  let y ← req d.y
  let nm ← req d.name
  let amt := d.amount.getD 0
  let it := mkItem x y nm (d.description.getD "A bundle of cash.") amt (.moneyBundle amt)
  pure { it with char := d.char.getD ITEM_CHAR }

/-- `Food.from_dict`. -/
def foodFromDict (d : ItemDict) : Except PyErr Item := do
  let x ← req d.x
  let y ← req d.y
  let nm ← req d.name
  let it := mkItem x y nm (d.description.getD "Some food.") (d.value.getD 0)
    (.food (d.hunger_restore.getD 20))
  pure { it with char := d.char.getD ITEM_CHAR }

/-- `Drink.from_dict`. -/
def drinkFromDict (d : ItemDict) : Except PyErr Item := do
  let x ← req d.x
  let y ← req d.y
  let nm ← req d.name
  let it := mkItem x y nm (d.description.getD "A drink.") (d.value.getD 0)
    (.drink (d.thirst_restore.getD 20))
  pure { it with char := d.char.getD ITEM_CHAR }

/-- `ItemFactory.create_item_from_dict`: type-tag dispatch, defaulting
to plain `Item`. -/
def itemFactoryFromDict (d : ItemDict) : Except PyErr Item :=
  match d.ty.getD "Item" with
  | "Weapon" => weaponFromDict d
  | "HealthPack" => healthPackFromDict d
  | "MoneyBundle" => moneyBundleFromDict d
  | "Food" => foodFromDict d
  | "Drink" => drinkFromDict d
  | _ => itemFromDict d

/-- `Character.from_dict` as executed with `cls = Player` (which is
what the `super().from_dict(data)` call inside `Player.from_dict`
runs): it fetches the seven constructor arguments and evaluates
`cls(x, y, char, name, health, money, stamina)` — a positional call of
the `Player` class with seven arguments, although `Player.__init__`
declares two, so the call raises `TypeError`.  The remainder of the
method (`max_health`, `max_stamina`, inventory, equipped-weapon
relink) is the faithful but unreachable continuation. -/
def characterFromDictAsPlayer (d : CharDict) : Except PyErr Player := do
  let x ← req d.x
  let y ← req d.y
  let ch ← req d.char
  let nm ← req d.name
  let h ← req d.health
  let obj ← callPlayerClass
    [.int x, .int y, .str ch, .str nm, .int h, .int (d.money.getD 0), .rat (d.stamina.getD 100)]
  let obj := { obj with max_health := d.max_health.getD h,
                        max_stamina := d.max_stamina.getD obj.stamina }
  let inv ← (d.inventory.getD []).mapM itemFactoryFromDict
  let obj := { obj with inventory := inv }
  match d.current_weapon with
  | some wn =>
      match inv.enum.find? (fun p => p.2.isWeapon && p.2.name == wn) with
      | some iw => pure { obj with current_weapon := some iw.1 }
      | none => pure obj
  | none => pure obj

/-- `Character.from_dict` as executed with `cls = NPC` (from
`NPC.from_dict`'s `super().from_dict(data)`): the same seven-argument
positional call of a class whose `__init__` accepts at most five, so
it raises `TypeError`; the continuation is unreachable. -/
def characterFromDictAsNPC (d : CharDict) : Except PyErr NPC := do
  let x ← req d.x
  let y ← req d.y
  let ch ← req d.char
  let nm ← req d.name
  let h ← req d.health
  let obj ← callNPCClass
    [.int x, .int y, .str ch, .str nm, .int h, .int (d.money.getD 0), .rat (d.stamina.getD 100)]
  let obj := { obj with max_health := d.max_health.getD h,
                        max_stamina := d.max_stamina.getD obj.stamina }
  let inv ← (d.inventory.getD []).mapM itemFactoryFromDict
  let obj := { obj with inventory := inv }
  match d.current_weapon with
  | some wn =>
      match inv.enum.find? (fun p => p.2.isWeapon && p.2.name == wn) with
      | some iw => pure { obj with current_weapon := some iw.1 }
      | none => pure obj
  | none => pure obj

/-- `Player.from_dict`: `super().from_dict(data)` (which raises, see
above) followed by the player-specific fields, all with defaults. -/
def playerFromDict (d : CharDict) : Except PyErr Player := do
  let obj ← characterFromDictAsPlayer d
  pure { obj with
    discovered_map := d.discovered_map.getD (List.replicate 25 (List.replicate 80 false)),
    missions_completed := d.missions_completed.getD [],
    wanted_level := d.wanted_level.getD 0,
    hunger := d.hunger.getD 100,
    thirst := d.thirst.getD 100,
    driving_skill := d.driving_skill.getD 1,
    weapon_skill := d.weapon_skill.getD 1,
    current_vehicle := none,
    current_mission := none,
    char := PLAYER_CHAR }

/-- `NPC.from_dict`: `super().from_dict(data)` (which raises) followed
by the NPC extras. -/
def npcFromDict (d : CharDict) : Except PyErr NPC := do
  let obj ← characterFromDictAsNPC d
  pure { obj with dialogue := d.dialogue.getD "...",
                  mission_completed := d.mission_completed.getD false,
                  mission_offered := none }

/-- `BigSmoke.from_dict`: calls `cls(data["x"], data["y"])` — the
matching two-argument constructor — and then fills every field with
`.get` defaults, so it succeeds (unlike `NPC.from_dict`). -/
def bigSmokeFromDict (d : CharDict) : Except PyErr NPC := do
  let x ← req d.x
  let y ← req d.y
  let obj := bigSmokeInit x y
  let h := d.health.getD 50
  let inv ← (d.inventory.getD []).mapM itemFactoryFromDict
  pure
    { obj with
      health := h, max_health := d.max_health.getD h,
      money := d.money.getD 0, stamina := d.stamina.getD 100,
      max_stamina := d.max_stamina.getD (d.stamina.getD 100),
      inventory := inv, current_weapon := none,
      dialogue := d.dialogue.getD "You picked the wrong house, fool!",
      mission_completed := d.mission_completed.getD false,
      mission_offered := none }

/-- `Enemy.from_dict`: calls the matching six-argument constructor and
fills the rest with defaults, so it succeeds. -/
def enemyFromDict (d : CharDict) : Except PyErr Enemy := do
  let x ← req d.x
  let y ← req d.y
  let nm ← req d.name
  let h := d.health.getD 40
  let fac := d.faction.getD "Gang"
  let inv ← (d.inventory.getD []).mapM itemFactoryFromDict
  let e := enemyInit x y nm h (d.damage.getD 10) fac
  pure
    { e with
      max_health := d.max_health.getD h,
      money := d.money.getD 0, stamina := d.stamina.getD 100,
      max_stamina := d.max_stamina.getD (d.stamina.getD 100),
      inventory := inv, current_weapon := none,
      char := if fac != "Police" then ENEMY_CHAR else POLICE_CHAR }

/-- `Shop.from_dict` (the catalogue comprehension runs first, then the
matching constructor call). -/
def shopFromDict (d : ShopDict) : Except PyErr Shop := do
  let inv ← (d.inventory.getD []).mapM (fun ip => do
    let it ← itemFactoryFromDict ip.1
    pure (it, ip.2))
  let x ← req d.x
  let y ← req d.y
  let nm ← req d.name
  pure { x := x, y := y, char := SHOP_CHAR, name := nm, inventory := inv,
         shop_type := d.shop_type.getD "General" }

/-- `Vehicle.from_dict` (matching constructor call; occupant re-linked
later by `load_game`). -/
def vehicleFromDict (d : VehicleDict) : Except PyErr Vehicle := do
  let x ← req d.x
  let y ← req d.y
  let nm ← req d.name
  let h := d.health.getD 100
  pure { x := x, y := y, char := VEHICLE_CHAR, name := nm, health := h,
         max_health := d.max_health.getD h, speed := d.speed.getD 1, occupant := none }

/-- The body of the `try` block of `Game.load_game` after a successful
file read and JSON parse: reset the collections, rebuild every entity
through the factories, re-link missions and the vehicle occupant.
`g` supplies the state load_game reads but does not replace
(`self.missions`, `self.running`). -/
def loadFromDoc (g : Game) (doc : SaveDoc) : Except PyErr Game := do
  let gt := doc.game_time.getD 0
  let player ← playerFromDict doc.player
  let npcObjs ← doc.npcs.foldlM (fun (acc : List MapObj) kv => do
      let npc ← if kv.2.ty == some "BigSmoke" then bigSmokeFromDict kv.2 else npcFromDict kv.2
      let npc := match kv.2.mission_offered.bind
          (fun mn => (g.missions.find? (fun ms => ms.1 == mn)).map (fun ms => ms.2)) with
        | some m => { npc with mission_offered := some m }
        | none => npc
      pure (acc ++ [MapObj.mnpc kv.1 npc])) ([] : List MapObj)
  let shopObjs ← doc.shops.foldlM (fun (acc : List MapObj) kv => do
      let s ← shopFromDict kv.2
      pure (acc ++ [MapObj.mshop kv.1 s])) ([] : List MapObj)
  let enemyObjs ← doc.enemies.foldlM (fun (acc : List MapObj) kv => do
      let e ← enemyFromDict kv.2
      pure (acc ++ [MapObj.menemy kv.1 e])) ([] : List MapObj)
  let vp ← doc.vehicles.foldlM (fun (acc : List MapObj × Player) kv => do
      let v ← vehicleFromDict kv.2
      if kv.2.occupant == some player.name then
        let v := { v with occupant := some player.name }
        pure (acc.1 ++ [MapObj.mvehicle kv.1 v],
              { acc.2 with current_vehicle := some v.name })
      else
        pure (acc.1 ++ [MapObj.mvehicle kv.1 v], acc.2)) (([] : List MapObj), player)
  let itemObjs ← doc.items_on_map.foldlM (fun (acc : List MapObj) idd => do
      let it ← itemFactoryFromDict idd
      pure (acc ++ [MapObj.mitem it])) ([] : List MapObj)
  let player2 := match doc.player.current_mission.bind
      (fun mn => (g.missions.find? (fun ms => ms.1 == mn)).map (fun ms => ms.2)) with
    | some m => { vp.2 with current_mission := some m }
    | none => vp.2
  pure { player := player2,
         objects := [MapObj.mplayer] ++ npcObjs ++ shopObjs ++ enemyObjs ++ vp.1 ++ itemObjs,
         game_time := gt, running := g.running, missions := g.missions }

/-- `Game.load_game` on the outcome of reading and parsing the save
file: every `except` clause (missing file, JSON decode error, and any
exception escaping the `try` body, such as the `TypeError` from
`Player.from_dict`) reports and re-runs `__init__`, producing the
freshly initialized world. -/
def loadGame (r : Except FileErr SaveDoc) (g : Game) : Game :=
  match r with
  | .error _ => freshGame
  | .ok doc =>
      match loadFromDoc g doc with
      | .ok g' => g'
      | .error _ => freshGame

end SA

namespace SA

/-- The `"type"` tag written by `to_dict` for each item variant. -/
def itemTypeName : ItemKind → String
  | .plain => "Item"
  | .weapon _ => "Weapon"
  | .healthPack _ => "HealthPack"
  | .moneyBundle _ => "MoneyBundle"
  | .food _ => "Food"
  | .drink _ => "Drink"

/-- `Item.to_dict` (with each subclass's extra field). -/
def itemToDict (it : Item) : ItemDict :=
  { x := some it.x, y := some it.y, char := some it.char, name := some it.name,
    description := some it.description, ty := some (itemTypeName it.kind),
    value := some it.value,
    damage := match it.kind with | .weapon v => some v | _ => none,
    heal_amount := match it.kind with | .healthPack v => some v | _ => none,
    amount := match it.kind with | .moneyBundle v => some v | _ => none,
    hunger_restore := match it.kind with | .food v => some v | _ => none,
    thirst_restore := match it.kind with | .drink v => some v | _ => none }

/-- `Player.to_dict` (`Character.to_dict` plus the player extras). -/
def playerToDict (p : Player) : CharDict :=
  { x := some p.x, y := some p.y, char := some p.char, name := some p.name,
    ty := some "Player",
    health := some p.health, max_health := some p.max_health,
    money := some p.money, stamina := some p.stamina, max_stamina := some p.max_stamina,
    inventory := some (p.inventory.map itemToDict),
    current_weapon := p.current_weapon.bind fun i => (p.inventory.get? i).map fun it => it.name,
    discovered_map := some p.discovered_map,
    missions_completed := some p.missions_completed,
    current_mission := p.current_mission.map fun m => m.name,
    wanted_level := some p.wanted_level, hunger := some p.hunger, thirst := some p.thirst,
    driving_skill := some p.driving_skill, weapon_skill := some p.weapon_skill,
    current_vehicle := p.current_vehicle,
    dialogue := none, mission_offered := none, mission_completed := none,
    char2_x := none, char2_y := none, damage := none, faction := none }

/-- `NPC.to_dict` / `BigSmoke.to_dict`. -/
def npcToDict (n : NPC) : CharDict :=
  { x := some n.x, y := some n.y, char := some n.char, name := some n.name,
    ty := some (if n.bigSmoke then "BigSmoke" else "NPC"),
    health := some n.health, max_health := some n.max_health,
    money := some n.money, stamina := some n.stamina, max_stamina := some n.max_stamina,
    inventory := some (n.inventory.map itemToDict),
    current_weapon := n.current_weapon.bind fun i => (n.inventory.get? i).map fun it => it.name,
    discovered_map := none, missions_completed := none, current_mission := none,
    wanted_level := none, hunger := none, thirst := none,
    driving_skill := none, weapon_skill := none, current_vehicle := none,
    dialogue := some n.dialogue,
    mission_offered := n.mission_offered.map fun m => m.name,
    mission_completed := some n.mission_completed,
    char2_x := if n.bigSmoke then some (n.x + 1) else none,
    char2_y := if n.bigSmoke then some n.y else none,
    damage := none, faction := none }

/-- `Enemy.to_dict`. -/
def enemyToDict (e : Enemy) : CharDict :=
  { x := some e.x, y := some e.y, char := some e.char, name := some e.name,
    ty := some "Enemy",
    health := some e.health, max_health := some e.max_health,
    money := some e.money, stamina := some e.stamina, max_stamina := some e.max_stamina,
    inventory := some (e.inventory.map itemToDict),
    current_weapon := e.current_weapon.bind fun i => (e.inventory.get? i).map fun it => it.name,
    discovered_map := none, missions_completed := none, current_mission := none,
    wanted_level := none, hunger := none, thirst := none,
    driving_skill := none, weapon_skill := none, current_vehicle := none,
    dialogue := none, mission_offered := none, mission_completed := none,
    char2_x := none, char2_y := none,
    damage := some e.damage, faction := some e.faction }

/-- `Shop.to_dict`. -/
def shopToDict (s : Shop) : ShopDict :=
  { x := some s.x, y := some s.y, char := some s.char, name := some s.name,
    ty := some "Shop",
    inventory := some (s.inventory.map fun ip => (itemToDict ip.1, ip.2)),
    shop_type := some s.shop_type }

/-- `Vehicle.to_dict`. -/
def vehicleToDict (v : Vehicle) : VehicleDict :=
  { x := some v.x, y := some v.y, char := some v.char, name := some v.name,
    ty := some "Vehicle",
    health := some v.health, max_health := some v.max_health,
    speed := some v.speed, occupant := v.occupant }

/-- `Game.save_game`'s document.  The `item not in
self.player.inventory` guard on `items_on_map` compares object
identity, and a map item is never the same object as an inventory item
(pickup removes it from the map), so the guard never filters
anything. -/
def saveDocOf (g : Game) : SaveDoc :=
  { version := some 2,
    game_time := some g.game_time,
    player := playerToDict g.player,
    npcs := g.objects.filterMap fun o =>
      match o with | .mnpc k n => some (k, npcToDict n) | _ => none,
    shops := g.objects.filterMap fun o =>
      match o with | .mshop k s => some (k, shopToDict s) | _ => none,
    enemies := g.objects.filterMap fun o =>
      match o with | .menemy k e => some (k, enemyToDict e) | _ => none,
    vehicles := g.objects.filterMap fun o =>
      match o with | .mvehicle k v => some (k, vehicleToDict v) | _ => none,
    items_on_map := g.objects.filterMap fun o =>
      match o with | .mitem it => some (itemToDict it) | _ => none }

/-- The environment of one session: the outcome of reading the save
file, and the injectable random source (`random.shuffle` outcomes for
enemy wandering, `random.randint(-5, 5)` pairs for police spawn
offsets), indexed by a running call counter. -/
structure Env where
  file : Except FileErr SaveDoc
  shuffles : Nat → List (Int × Int)
  offsets : Nat → Int × Int

/-- `Game.spawn_police`: one spawn attempt per wanted-level star, each
at a clamped random offset from the player, rejected when the cell is
occupied; a spawned officer joins the map and the enemies dictionary
under the key `"police_" + str(len(self.enemies))`. -/
def spawnPolice (env : Env) (ctr : Nat) (g : Game) : Game × Nat :=
  if g.player.wanted_level > 0 then
    let n := g.player.wanted_level.toNat
    ((List.range n).foldl (fun acc i =>
      let off := env.offsets (ctr + i)
      let sx := clamp (acc.player.x + off.1) 0 (MAP_WIDTH - 1)
      let sy := clamp (acc.player.y + off.2) 0 (MAP_HEIGHT - 1)
      if getObjectAt acc sx sy = none then
        let w := acc.player.wanted_level
        let police := enemyInit sx sy "Police Officer" (60 + w * 10) (15 + w * 5) "Police"
        { acc with objects :=
            acc.objects ++ [.menemy ("police_" ++ toString acc.numEnemies) police] }
      else acc) g, ctr + n)
  else (g, ctr)

/-- `Enemy.take_turn` for the enemy at `objects` index `selfIdx`:
police pursue when the player is wanted (greedy sign step, falling
back to a random walk); everyone else attacks when Chebyshev-adjacent
and wanders otherwise.  Note the short-circuit: a police officer
standing exactly on the player (`dx = dy = 0`) skips `move_towards`
and wanders.  Returns the updated state and random-call counter. -/
def enemyTakeTurn (env : Env) (ctr : Nat) (g : Game) (selfIdx : Nat) : Game × Nat :=
  match g.objects.get? selfIdx with
  | some (.menemy _ e) =>
      if e.health ≤ 0 then (g, ctr)
      else if e.faction == "Police" && g.player.wanted_level > 0 then
        let dx : Int := if g.player.x > e.x then 1 else if g.player.x < e.x then -1 else 0
        let dy : Int := if g.player.y > e.y then 1 else if g.player.y < e.y then -1 else 0
        if dx ≠ 0 ∨ dy ≠ 0 then
          let r := moveTowards g selfIdx g.player.x g.player.y
          if r.2 then (r.1, ctr)
          else ((moveRandomly g selfIdx (env.shuffles ctr)).1, ctr + 1)
        else ((moveRandomly g selfIdx (env.shuffles ctr)).1, ctr + 1)
      else
        if (e.x - g.player.x).natAbs ≤ 1 ∧ (e.y - g.player.y).natAbs ≤ 1 then
          let dmg := enemyAttackDamage e
          ({ g with player := { g.player with health := (takeDamageCore g.player.health dmg).1 } },
           ctr)
        else ((moveRandomly g selfIdx (env.shuffles ctr)).1, ctr + 1)
  | _ => (g, ctr)

/-- The enemy pass of `game_loop`: iterate over a snapshot of the
enemies dictionary (modelled by its key list; keys are unique and no
enemy is added or removed during the pass), letting each enemy with
positive health act once. -/
def enemyTurnsAux (env : Env) : List String → Game × Nat → Game × Nat
  | [], acc => acc
  | k :: rest, acc =>
      match acc.1.objects.enum.find? (fun oi =>
          match oi.2 with
          | .menemy k2 _ => k2 == k
          | _ => false) with
      | some (i, .menemy _ e) =>
          if e.health > 0 then enemyTurnsAux env rest (enemyTakeTurn env acc.2 acc.1 i)
          else enemyTurnsAux env rest acc
      | _ => enemyTurnsAux env rest acc

/-- `Game.handle_input`.  Every branch except `'l'` and `'q'` ends with
`player.discover_area` on the same player object; the `'q'` branch
returns early, and in the `'l'` branch the trailing call acts on the
stale local binding of the pre-load player object, so it cannot affect
the freshly loaded state. -/
def handleInput (env : Env) (ts : List String) (key : String) (g : Game) : Game :=
  if key == "e" then
    let r := interactScan ts g neighborOffsets
    { r.1 with player := discoverArea r.1.player }
  else if key == "x" then
    let g' := exitVehicleHandler g
    { g' with player := discoverArea g'.player }
  else if key == "u" then
    let g' := (useItemHandler ts g).1
    { g' with player := discoverArea g'.player }
  else if key == "f" then
    let g' := attackHandler g
    { g' with player := discoverArea g'.player }
  else if key == "v" then
    { g with player := discoverArea g.player }
  else if key == "l" then
    loadGame env.file g
  else if key == "q" then
    { g with running := false }
  else if key == "w" then
    let g' := (playerMove g 0 (-1)).1
    { g' with player := discoverArea g'.player }
  else if key == "a" then
    let g' := (playerMove g (-1) 0).1
    { g' with player := discoverArea g'.player }
  else if key == "s" then
    let g' := (playerMove g 0 1).1
    { g' with player := discoverArea g'.player }
  else if key == "d" then
    let g' := (playerMove g 1 0).1
    { g' with player := discoverArea g'.player }
  else
    { g with player := discoverArea g.player }

/-- How one iteration of the `while self.running` loop ends: it either
breaks out (defeat), falls out of the `while` condition (quit), or
continues with the next state. -/
inductive StepResult where
  | defeatExit (g : Game)
  | quitExit (g : Game)
  | next (g : Game)
deriving DecidableEq

/-- The three modulus-gated periodic effects at the top of each loop
iteration: needs decay every 10 ticks, wanted decay every 50, police
spawn every 20 (each also gated on the wanted level where the source
is). -/
def periodicPhase (env : Env) (ctr : Nat) (g : Game) : Game × Nat :=
  let g := if g.game_time % 10 == 0 then { g with player := updateNeeds g.player } else g
  let g :=
    if g.player.wanted_level > 0 && g.game_time % 50 == 0 then
      { g with player := reduceWantedLevel g.player 1 }
    else g
  if g.player.wanted_level > 0 && g.game_time % 20 == 0 then spawnPolice env ctr g
  else (g, ctr)

/-- One iteration of `Game.game_loop`'s `while` body, entered with
`g.running = true`: render (pure), the defeat check, the three
modulus-gated periodic effects, one lower-cased input command, the
enemy pass (which still runs after a quit command), and the tick
increment; then the `while` condition is re-examined. -/
def gameStep (env : Env) (ts : List String) (action : String) (ctr : Nat) (g : Game) :
    StepResult :=
  if g.player.health ≤ 0 then .defeatExit g
  else
    let gc := periodicPhase env ctr g
    let g1 := handleInput env ts (strLower action) gc.1
    let g2 := (enemyTurnsAux env g1.enemyKeys (g1, gc.2)).1
    let g3 := { g2 with game_time := g2.game_time + 1 }
    if g3.running then .next g3 else .quitExit g3

end SA

namespace SA

/-- `Character.from_dict` run with `cls = Player` always raises: either
a `KeyError` while fetching a required key, or the `TypeError` of the
seven-argument call of the two-parameter `Player` constructor. -/
theorem characterFromDictAsPlayer_isError (d : CharDict) :
    ∃ err, characterFromDictAsPlayer d = .error err := by
  unfold characterFromDictAsPlayer
  cases d.x
  · exact ⟨.keyError, rfl⟩
  cases d.y
  · exact ⟨.keyError, rfl⟩
  cases d.char
  · exact ⟨.keyError, rfl⟩
  cases d.name
  · exact ⟨.keyError, rfl⟩
  cases d.health
  · exact ⟨.keyError, rfl⟩
  exact ⟨.typeError, rfl⟩

/-- Hence `Player.from_dict` always raises. -/
theorem playerFromDict_isError (d : CharDict) :
    ∃ err, playerFromDict d = .error err := by
  obtain ⟨err, h⟩ := characterFromDictAsPlayer_isError d
  refine ⟨err, ?_⟩
  unfold playerFromDict
  rw [h]
  rfl

/-- Hence the whole `try` body of `load_game` raises on every document. -/
theorem loadFromDoc_isError (g : Game) (doc : SaveDoc) :
    ∃ err, loadFromDoc g doc = .error err := by
  obtain ⟨err, h⟩ := playerFromDict_isError doc.player
  refine ⟨err, ?_⟩
  unfold loadFromDoc
  rw [h]
  rfl

/-- Hence `load_game` lands in an `except` handler on every input and
always produces the freshly re-initialized world. -/
theorem loadGame_eq_fresh (r : Except FileErr SaveDoc) (g : Game) :
    loadGame r g = freshGame := by
  cases r with
  | error e => rfl
  | ok doc =>
      obtain ⟨err, h⟩ := loadFromDoc_isError g doc
      simp only [loadGame, h]

end SA

namespace SA

/-- A reachable, non-fresh state used to exhibit the save/load defect:
the fresh world after the player has moved and spent money. -/
def c1State : Game :=
  { freshGame with player := { freshGame.player with x := 10, y := 9, money := 123 } }

/-- C1: the save→load round trip does not reproduce the state.
`save_game` serializes `c1State` faithfully, but `load_game` on the
produced document hits the `TypeError` raised by `Player.from_dict`
(`Character.from_dict` calls `Player` with seven positional arguments)
and falls back to a fresh world: the loaded player position and money
differ from the saved ones, so position, money (and with them the
claimed identity of the round trip) are not preserved. -/
theorem c1_roundtrip_discards_state :
    playerFromDict (saveDocOf c1State).player = .error .typeError ∧
    loadGame (.ok (saveDocOf c1State)) c1State = freshGame ∧
    c1State.player.money = 123 ∧ freshGame.player.money = 500 ∧
    c1State.player.x = 10 ∧ freshGame.player.x = 40 :=
  ⟨rfl, loadGame_eq_fresh _ _, rfl, rfl, rfl, rfl⟩

/-- A version-1-style document: the fresh save of `c1State` with the
newer `stamina` field removed from the player record. -/
def c2Doc : SaveDoc :=
  let d := saveDocOf c1State
  { d with player := { d.player with stamina := none } }

/-- A serialized enemy lacking several newer fields (`stamina`,
`faction`, `damage`), used to show the intended `.get` defaulting does
work on the reconstruction paths whose constructor call matches. -/
def c2EnemyDoc : CharDict :=
  { x := some 3, y := some 4, char := some ENEMY_CHAR, name := some "Gangster",
    ty := some "Enemy", health := some 40,
    max_health := none, money := none, stamina := none, max_stamina := none,
    inventory := none, current_weapon := none, discovered_map := none,
    missions_completed := none, current_mission := none, wanted_level := none,
    hunger := none, thirst := none, driving_skill := none, weapon_skill := none,
    current_vehicle := none, dialogue := none, mission_offered := none,
    mission_completed := none, char2_x := none, char2_y := none,
    damage := none, faction := none }

/-- C2: loading a document that merely lacks a newer field fails.
The per-field `.get` defaults exist (last conjuncts: `Enemy.from_dict`
does default `stamina`, `damage` and `faction` exactly as documented),
but the player path never reaches them: `Player.from_dict` raises
`TypeError` on every document, so `load_game` on `c2Doc` discards the
whole document (money 123 in the document, 500 after the load) instead
of defaulting the one absent `stamina` field. -/
theorem c2_missing_newer_field_load_fails :
    c2Doc.player.stamina = none ∧
    playerFromDict c2Doc.player = .error .typeError ∧
    loadGame (.ok c2Doc) freshGame = freshGame ∧
    c2Doc.player.money = some 123 ∧ freshGame.player.money = 500 ∧
    enemyFromDict c2EnemyDoc =
      .ok { enemyInit 3 4 "Gangster" 40 10 "Gang" with char := ENEMY_CHAR } :=
  ⟨rfl, rfl, loadGame_eq_fresh _ _, rfl, rfl, rfl⟩

/-- C3: a missing, corrupt or otherwise unreadable save file is caught
by the matching `except` clause, which reports and re-runs `__init__`:
for every read failure the resulting state is exactly the freshly
initialized world (and in particular the loop keeps running:
`freshGame.running = true`). -/
theorem c3_unreadable_file_fresh_world :
    (∀ (e : FileErr) (g : Game), loadGame (.error e) g = freshGame) ∧
    freshGame.running = true :=
  ⟨fun e g => loadGame_eq_fresh (.error e) g, rfl⟩

end SA

namespace SA

/-- A character whose health is already 0 (e.g. a defeated entity kept
around), used to separate "health is now 0" from "was just reduced to
0". -/
def c9Char : Character :=
  { x := 0, y := 0, char := ENEMY_CHAR, name := "Gangster", health := 0,
    max_health := 50, inventory := [], money := 0, stamina := 100,
    max_stamina := 100, current_weapon := none }

/-- C9 counterexample: `take_damage` returns `self.health == 0`, the
defeat *level*, not the defeat *edge*: on a character whose health is
already 0 it returns `true` although `old_health` was not positive, so
the claimed equivalence `returned ↔ (health = 0 ∧ old_health > 0)`
fails at this input. -/
theorem c9_defeat_flag_counterexample :
    (c9Char.take_damage 3).2 = true ∧ (c9Char.take_damage 3).1.health = 0 ∧
    ¬ 0 < c9Char.health := by
  refine ⟨rfl, rfl, ?_⟩
  decide

/-- C9 amended: for `a ≥ 0` and a character satisfying its health
invariant, `take_damage a` clamps as claimed and returns `true` exactly
when the resulting health is 0 (equivalently `old_health ≤ a`); the
claim's "just reduced to 0" reading coincides with this exactly when
`old_health` was positive. -/
theorem c9_take_damage_amended (c : Character) (a : Int)
    (ha : 0 ≤ a) (h0 : 0 ≤ c.health) (hm : c.health ≤ c.max_health) :
    (c.take_damage a).1.health = max 0 (c.health - a) ∧
    0 ≤ (c.take_damage a).1.health ∧
    (c.take_damage a).1.health ≤ (c.take_damage a).1.max_health ∧
    ((c.take_damage a).2 = true ↔ c.health ≤ a) ∧
    (0 < c.health →
      ((c.take_damage a).2 = true ↔ ((c.take_damage a).1.health = 0 ∧ 0 < c.health))) := by
  have h1 : (c.take_damage a).1.health = (if c.health - a < 0 then 0 else c.health - a) := rfl
  have h2 : (c.take_damage a).2 = ((if c.health - a < 0 then 0 else c.health - a) == 0) := rfl
  have h3 : (c.take_damage a).1.max_health = c.max_health := rfl
  rw [h1, h2, h3]
  simp only [beq_iff_eq]
  refine ⟨by split_ifs <;> omega, by split_ifs <;> omega, by split_ifs <;> omega, ?_, ?_⟩
  · constructor
    · intro h
      split_ifs at h <;> omega
    · intro h
      split_ifs <;> omega
  · intro hpos
    constructor
    · intro h
      split_ifs at h <;> omega
    · intro h
      obtain ⟨hz, _⟩ := h
      split_ifs at hz <;> omega

/-- A live character for the C9 witness. -/
def c9WChar : Character :=
  { c9Char with health := 10 }

/-- C9 witness: the amended statement evaluated on a live character. -/
theorem c9_take_damage_amended_witness :
    ((c9WChar.take_damage 3).2 = true ↔ c9WChar.health ≤ 3) ∧
    (c9WChar.take_damage 3).1.health = max 0 (c9WChar.health - 3) :=
  ⟨(c9_take_damage_amended c9WChar 3 (by decide) (by decide) (by decide)).2.2.2.1,
   (c9_take_damage_amended c9WChar 3 (by decide) (by decide) (by decide)).1⟩

end SA

namespace SA

/-- A vehicle parked on the last column, with the player inside. -/
def c10Vehicle : Vehicle :=
  { vehicleInit 79 10 "Green Sabre" 100 3 with occupant := some "CJ" }

/-- The player inside `c10Vehicle`. -/
def c10Player : Player :=
  { playerInit 79 10 with current_vehicle := some "Green Sabre" }

/-- A vehicle with the player inside and another entity on the cell to
its right. -/
def c10Vehicle2 : Vehicle :=
  { vehicleInit 22 15 "Green Sabre" 100 3 with occupant := some "CJ" }

/-- A world in which the cell `(23, 15)` right of `c10Vehicle2` is
occupied by an enemy while the player sits in the vehicle. -/
def c10World : Game :=
  { player := { playerInit 22 15 with current_vehicle := some "Green Sabre" },
    objects := [.mplayer, .mvehicle "green_sabre" c10Vehicle2,
      .menemy "g1" (enemyInit 23 15 "Gangster" 40 10 "Ballaz")],
    game_time := 1, running := true, missions := [] }

/-- C10: `Vehicle.exit` relocates its occupant to `(x + 1, y)`
unconditionally — no grid-bounds check and no occupancy check — while
always clearing both directions of the vehicle/occupant link; on a
vehicle parked at `x = MAP_WIDTH - 1` the exiting player ends up at
`x = MAP_WIDTH`, outside the grid, and next to `c10Vehicle2` the player
lands exactly on the enemy-occupied cell `(23, 15)`. -/
theorem c10_vehicle_exit_unsafe :
    (∀ (v : Vehicle) (p : Player), v.occupant = some p.name →
      (v.exit p).2.1.x = v.x + 1 ∧ (v.exit p).2.1.y = v.y ∧
      (v.exit p).1.occupant = none ∧ (v.exit p).2.1.current_vehicle = none ∧
      (v.exit p).2.2 = true) ∧
    (c10Vehicle.exit c10Player).2.1.x = MAP_WIDTH ∧
    ¬ (c10Vehicle.exit c10Player).2.1.x < MAP_WIDTH ∧
    (getObjectAt c10World 23 15).isSome = true ∧
    (c10Vehicle2.exit c10World.player).2.1.x = 23 ∧
    (c10Vehicle2.exit c10World.player).2.1.y = 15 := by
  refine ⟨?_, rfl, by decide, rfl, rfl, rfl⟩
  intro v p h
  unfold Vehicle.exit
  rw [if_pos h]
  exact ⟨rfl, rfl, rfl, rfl, rfl⟩

/-- C10 witness: the universally quantified part applied to the
concrete vehicle/player pair on the last column. -/
theorem c10_vehicle_exit_unsafe_witness :
    (c10Vehicle.exit c10Player).2.1.x = c10Vehicle.x + 1 ∧
    (c10Vehicle.exit c10Player).2.1.y = c10Vehicle.y ∧
    (c10Vehicle.exit c10Player).1.occupant = none ∧
    (c10Vehicle.exit c10Player).2.1.current_vehicle = none ∧
    (c10Vehicle.exit c10Player).2.2 = true :=
  c10_vehicle_exit_unsafe.1 c10Vehicle c10Player rfl

end SA

namespace SA

/-- An environment with no readable file and a silent random source
(used only where the branch under study consumes no randomness). -/
def envNone : Env :=
  { file := .error .fileNotFound, shuffles := fun _ => [], offsets := fun _ => (0, 0) }

/-- Projections of `discover_area`: it only writes the discovery grid. -/
theorem discoverArea_wanted (p : Player) : (discoverArea p).wanted_level = p.wanted_level := rfl

/-- Projection of `discover_area` to money. -/
theorem discoverArea_money (p : Player) : (discoverArea p).money = p.money := rfl

/-- `attackHandler` on a defeated target: the target leaves the map
and the wanted level rises by the faction-dependent amount. -/
theorem attackHandler_defeat (g : Game) (i : Nat) (k : String) (e : Enemy)
    (hscan : attackScan g = some (i, k, e))
    (hdef : e.health ≤ g.player.attackDamage) :
    attackHandler g =
      (if e.faction == "Police" then
        { g with objects := g.objects.eraseIdx i, player := addWantedLevel g.player 2 }
      else
        { g with objects := g.objects.eraseIdx i, player := addWantedLevel g.player 1 }) := by
  have hr : takeDamageCore e.health g.player.attackDamage = (0, true) := by
    unfold takeDamageCore
    by_cases hlt : e.health - g.player.attackDamage < 0
    · simp [hlt]
    · have hz : e.health - g.player.attackDamage = 0 := by omega
      simp [hlt, hz]
  unfold attackHandler
  rw [hscan]
  simp only [hr]
  split
  case isTrue => split <;> rfl
  case isFalse h => exact absurd trivial h

/-- The `'f'` branch of `handle_input` is the attack handler followed
by `discover_area`. -/
theorem handleInput_f (env : Env) (ts : List String) (g : Game) :
    handleInput env ts "f" g =
      { attackHandler g with player := discoverArea (attackHandler g).player } := rfl

/-- A world with the player standing next to a weak police officer
(health 3, below the 5 damage of bare fists). -/
def cg4 : Game :=
  { player := playerInit 10 10,
    objects := [.mplayer, .menemy "p1" (enemyInit 11 10 "Police Officer" 3 15 "Police")],
    game_time := 1, running := true, missions := [] }

/-- C4 counterexample: defeating an adjacent police enemy from
`wanted_level = 0` does set the wanted level to 2 and removes the
enemy, but the player's money is unchanged — the `'f'` handler grants
no defeat bonus, so the claim's "money has increased by the defeat
bonus" fails at this input. -/
theorem c4_no_money_bonus_counterexample :
    (handleInput envNone [] "f" cg4).player.wanted_level = 2 ∧
    (handleInput envNone [] "f" cg4).objects = [.mplayer] ∧
    (handleInput envNone [] "f" cg4).player.money = cg4.player.money :=
  ⟨rfl, rfl, rfl⟩

/-- C4 amended: whenever the attack scan selects a `"Police"` enemy
that this exchange defeats and the player is not wanted, afterwards the
wanted level is exactly 2, the defeated enemy's entry is removed from
the world, and the player's money is unchanged (the source grants no
defeat money bonus). -/
theorem c4_police_defeat_amended (env : Env) (ts : List String) (g : Game)
    (i : Nat) (k : String) (e : Enemy)
    (hscan : attackScan g = some (i, k, e))
    (hpol : e.faction = "Police")
    (hw : g.player.wanted_level = 0)
    (hdef : e.health ≤ g.player.attackDamage) :
    (handleInput env ts "f" g).player.wanted_level = 2 ∧
    (handleInput env ts "f" g).player.money = g.player.money ∧
    (handleInput env ts "f" g).objects = g.objects.eraseIdx i := by
  have hA := attackHandler_defeat g i k e hscan hdef
  rw [hpol] at hA
  simp only [beq_self_eq_true, if_true] at hA
  rw [handleInput_f, hA]
  refine ⟨?_, ?_, rfl⟩
  · show (addWantedLevel g.player 2).wanted_level = 2
    simp [addWantedLevel, clamp, hw]
    decide
  · show (addWantedLevel g.player 2).money = g.player.money
    rfl

end SA

namespace SA

/-- C4 witness: the amended statement at the concrete police scenario
(fists, 5 damage, against health 3). -/
theorem c4_police_defeat_amended_witness :
    (handleInput envNone ["x"] "f" cg4).player.wanted_level = 2 ∧
    (handleInput envNone ["x"] "f" cg4).player.money = cg4.player.money ∧
    (handleInput envNone ["x"] "f" cg4).objects = cg4.objects.eraseIdx 1 :=
  c4_police_defeat_amended envNone ["x"] cg4 1 "p1"
    (enemyInit 11 10 "Police Officer" 3 15 "Police") rfl rfl rfl (by decide)

end SA

namespace SA

/-- If some position of a list satisfies the predicate, `any` holds. -/
theorem any_of_get {α : Type} (l : List α) (p : α → Bool) (j : Nat) (o : α)
    (h : l.get? j = some o) (hp : p o = true) : l.any p = true := by
  have hm : o ∈ l := List.get?_mem h
  exact List.any_eq_true.mpr ⟨o, hm, hp⟩

/-- Like `any_of_get`, for the `enumFrom`-indexed form of a list. -/
theorem enumFrom_any_of_get {α : Type} (f : Nat × α → Bool) :
    ∀ (l : List α) (n j : Nat) (o : α), l.get? j = some o → f (n + j, o) = true →
      (l.enumFrom n).any f = true := by
  intro l
  induction l with
  | nil =>
      intro n j o h _
      simp at h
  | cons a t ih =>
      intro n j o h hf
      cases j with
      | zero =>
          simp at h
          subst h
          simp [List.enumFrom, List.any_cons]
          left
          simpa using hf
      | succ j2 =>
          simp [List.enumFrom, List.any_cons]
          right
          have hrw : n + (j2 + 1) = (n + 1) + j2 := by omega
          rw [hrw] at hf
          have := ih (n + 1) j2 o (by simpa using h) hf
          simpa using this

/-- The `enum` specialisation. -/
theorem enum_any_of_get {α : Type} (f : Nat × α → Bool) (l : List α) (j : Nat) (o : α)
    (h : l.get? j = some o) (hf : f (j, o) = true) : l.enum.any f = true := by
  have := enumFrom_any_of_get f l 0 j o h (by simpa using hf)
  simpa [List.enum] using this

end SA

namespace SA

/-- C6 amended, part for the walking player: a move targeting either
Big Smoke tile is rejected with no state change. -/
theorem playerWalkMove_bigSmoke_blocked (g : Game) (j : Nat) (k : String) (n : NPC)
    (dx dy : Int)
    (hj : g.objects.get? j = some (.mnpc k n)) (hbs : n.bigSmoke = true)
    (hv : g.player.current_vehicle = none)
    (ht : (g.player.x + dx = n.x ∧ g.player.y + dy = n.y) ∨
          (g.player.x + dx = n.x + 1 ∧ g.player.y + dy = n.y)) :
    playerMove g dx dy = (g, false) := by
  unfold playerMove
  rw [hv]
  unfold playerWalkMove
  by_cases hb : 0 ≤ g.player.x + dx ∧ g.player.x + dx < MAP_WIDTH ∧
      0 ≤ g.player.y + dy ∧ g.player.y + dy < MAP_HEIGHT
  · have hany : g.objects.any
        (blocksPlayerWalk g.player (g.player.x + dx) (g.player.y + dy)) = true := by
      apply any_of_get _ _ j _ hj
      unfold blocksPlayerWalk
      rcases ht with ⟨h1, h2⟩ | ⟨h1, h2⟩ <;> simp [hbs, h1, h2]
    simp [hb, hany]
  · simp [hb]

end SA

namespace SA

/-- C6 amended, part for vehicles: a vehicle move targeting either Big
Smoke tile is rejected with no state change. -/
theorem vehicleMoveAt_bigSmoke_blocked (g : Game) (vi j : Nat) (kv kn : String)
    (v : Vehicle) (n : NPC) (dx dy : Int)
    (hvi : g.objects.get? vi = some (.mvehicle kv v))
    (hj : g.objects.get? j = some (.mnpc kn n)) (hbs : n.bigSmoke = true)
    (ht : (v.x + dx = n.x ∧ v.y + dy = n.y) ∨
          (v.x + dx = n.x + 1 ∧ v.y + dy = n.y)) :
    vehicleMoveAt g vi dx dy = (g, false) := by
  have hne : j ≠ vi := by
    intro hEq
    rw [hEq, hvi] at hj
    exact absurd hj (by simp)
  unfold vehicleMoveAt
  rw [hvi]
  by_cases hb : 0 ≤ v.x + dx ∧ v.x + dx < MAP_WIDTH ∧ 0 ≤ v.y + dy ∧ v.y + dy < MAP_HEIGHT
  · have hany : g.objects.enum.any (fun oi =>
        blocksVehicle g.player v.occupant.isSome vi (v.x + dx) (v.y + dy) oi.1 oi.2) = true := by
      apply enum_any_of_get _ _ j _ hj
      unfold blocksVehicle
      have hjb : (j == vi) = false := by simp [hne]
      rcases ht with ⟨h1, h2⟩ | ⟨h1, h2⟩ <;> simp [hjb, hbs, h1, h2]
    simp [hb, hany]
  · simp [hb]

/-- C6 amended, part for enemies: the occupancy test of the enemy
movement helpers sees only the primary Big Smoke cell, so a step onto
`(x, y)` is refused... -/
theorem enemyTryStepAt_primary_blocked (g : Game) (si j : Nat) (ke kn : String)
    (e : Enemy) (n : NPC) (dx dy : Int)
    (hsi : g.objects.get? si = some (.menemy ke e))
    (hj : g.objects.get? j = some (.mnpc kn n))
    (hne : j ≠ si)
    (ht : e.x + dx = n.x ∧ e.y + dy = n.y) :
    enemyTryStepAt g si dx dy = none := by
  unfold enemyTryStepAt
  rw [hsi]
  by_cases hb : 0 ≤ e.x + dx ∧ e.x + dx < MAP_WIDTH ∧ 0 ≤ e.y + dy ∧ e.y + dy < MAP_HEIGHT
  · have hocc : enemyOccupiedAt g si (e.x + dx) (e.y + dy) = true := by
      unfold enemyOccupiedAt
      apply enum_any_of_get _ _ j _ hj
      have hjb : (j != si) = true := by simp [hne]
      simp [hjb, MapObj.px, MapObj.py, ht.1, ht.2]
    simp [hb, hocc]
  · simp [hb]

end SA

namespace SA

/-- C6 amended: every Big-Smoke-covered target cell blocks the walking
player and vehicles (both tiles), while the enemy movement helpers
only treat the primary cell as occupied. -/
theorem c6_bigsmoke_blocking_amended :
    (∀ (g : Game) (j : Nat) (k : String) (n : NPC) (dx dy : Int),
      g.objects.get? j = some (.mnpc k n) → n.bigSmoke = true →
      g.player.current_vehicle = none →
      ((g.player.x + dx = n.x ∧ g.player.y + dy = n.y) ∨
       (g.player.x + dx = n.x + 1 ∧ g.player.y + dy = n.y)) →
      playerMove g dx dy = (g, false)) ∧
    (∀ (g : Game) (vi j : Nat) (kv kn : String) (v : Vehicle) (n : NPC) (dx dy : Int),
      g.objects.get? vi = some (.mvehicle kv v) →
      g.objects.get? j = some (.mnpc kn n) → n.bigSmoke = true →
      ((v.x + dx = n.x ∧ v.y + dy = n.y) ∨
       (v.x + dx = n.x + 1 ∧ v.y + dy = n.y)) →
      vehicleMoveAt g vi dx dy = (g, false)) ∧
    (∀ (g : Game) (si j : Nat) (ke kn : String) (e : Enemy) (n : NPC) (dx dy : Int),
      g.objects.get? si = some (.menemy ke e) →
      g.objects.get? j = some (.mnpc kn n) → j ≠ si →
      (e.x + dx = n.x ∧ e.y + dy = n.y) →
      enemyTryStepAt g si dx dy = none) :=
  ⟨fun g j k n dx dy hj hbs hv ht =>
      playerWalkMove_bigSmoke_blocked g j k n dx dy hj hbs hv ht,
   fun g vi j kv kn v n dx dy hvi hj hbs ht =>
      vehicleMoveAt_bigSmoke_blocked g vi j kv kn v n dx dy hvi hj hbs ht,
   fun g si j ke kn e n dx dy hsi hj hne ht =>
      enemyTryStepAt_primary_blocked g si j ke kn e n dx dy hsi hj hne ht⟩

/-- World for the enemy-walks-onto-Big-Smoke counterexample: Big Smoke
at `(20, 15)`/`(21, 15)`, an enemy at `(22, 15)`. -/
def cg6 : Game :=
  { player := playerInit 40 12,
    objects := [.mplayer, .mnpc "big_smoke" bigSmokeNPC,
      .menemy "g1" (enemyInit 22 15 "Gangster" 40 10 "Ballaz")],
    game_time := 1, running := true, missions := [] }

/-- The position of the enemy stored at `objects` index `i`. -/
def enemyPos (g : Game) (i : Nat) : Option (Int × Int) :=
  match g.objects.get? i with
  | some (.menemy _ e) => some (e.x, e.y)
  | _ => none

/-- C6 counterexample: the enemy step from `(22, 15)` onto
`(21, 15)` — the second tile of the live Big Smoke at `(20, 15)` —
succeeds and moves the enemy there, so the claim's "rejected for every
mover" fails for enemies. -/
theorem c6_enemy_enters_second_tile :
    cg6.objects.get? 1 = some (.mnpc "big_smoke" bigSmokeNPC) ∧
    bigSmokeNPC.bigSmoke = true ∧ bigSmokeNPC.x = 20 ∧ bigSmokeNPC.y = 15 ∧
    ((enemyTryStepAt cg6 2 (-1) 0).bind fun g2 => enemyPos g2 2) = some (21, 15) :=
  ⟨rfl, rfl, rfl, rfl, rfl⟩

/-- World for the C6 witness: the player on foot at `(22, 15)`, an
empty vehicle at `(21, 14)`, Big Smoke at `(20, 15)`, and an enemy at
`(19, 15)` ready to step onto the primary tile. -/
def cg6w : Game :=
  { player := playerInit 22 15,
    objects := [.mplayer, .mnpc "big_smoke" bigSmokeNPC,
      .mvehicle "green_sabre" (vehicleInit 21 14 "Green Sabre" 100 3),
      .menemy "g1" (enemyInit 19 15 "Gangster" 40 10 "Ballaz")],
    game_time := 1, running := true, missions := [] }

/-- C6 witness: all three conjuncts of the amended claim evaluated at
concrete inputs in `cg6w`: the player walking onto the second tile is
rejected, the vehicle moving onto the primary tile is rejected, and
the enemy step onto the primary tile is refused. -/
theorem c6_bigsmoke_blocking_amended_witness :
    playerMove cg6w (-1) 0 = (cg6w, false) ∧
    vehicleMoveAt cg6w 2 (-1) 1 = (cg6w, false) ∧
    enemyTryStepAt cg6w 3 1 0 = none :=
  ⟨c6_bigsmoke_blocking_amended.1 cg6w 1 "big_smoke" bigSmokeNPC (-1) 0 rfl rfl rfl
      (Or.inr ⟨rfl, rfl⟩),
   c6_bigsmoke_blocking_amended.2.1 cg6w 2 1 "green_sabre" "big_smoke"
      (vehicleInit 21 14 "Green Sabre" 100 3) bigSmokeNPC (-1) 1 rfl rfl rfl
      (Or.inl ⟨rfl, rfl⟩),
   c6_bigsmoke_blocking_amended.2.2 cg6w 3 1 "g1" "big_smoke"
      (enemyInit 19 15 "Gangster" 40 10 "Ballaz") bigSmokeNPC 1 0 rfl rfl
      (by decide) ⟨rfl, rfl⟩⟩

end SA

namespace SA

/-- Completing a mission changes money by exactly the money reward. -/
theorem mission_complete_money (m : Mission) (p : Player) :
    (m.complete p).money = p.money + m.reward_money := by
  unfold Mission.complete
  cases m.reward_item <;> rfl

/-- Completing a mission leaves the completed list untouched (the list
append happens in `talk`, not in `Mission.complete`). -/
theorem mission_complete_missions (m : Mission) (p : Player) :
    (m.complete p).missions_completed = p.missions_completed := by
  unfold Mission.complete
  cases m.reward_item <;> rfl

/-- C8: mission completion through an NPC is idempotent. First
conjunct: once `mission_completed` is set on the NPC, `talk` is the
identity on the NPC, the player and the input stream — so no second
append and no second reward is possible. Second conjunct: the one
completing `talk` appends the name exactly once, pays the money reward
exactly once and sets the NPC's flag; in particular a name not yet in
the list occurs exactly once afterwards. -/
theorem c8_completion_idempotent (ts : List String) (n : NPC) (p : Player) :
    (n.mission_completed = true → npcTalk ts n p = (n, p, ts)) ∧
    (∀ m, n.bigSmoke = false → n.mission_completed = false →
      n.mission_offered = some m → m.is_completed p = true →
      (npcTalk ts n p).1.mission_completed = true ∧
      (npcTalk ts n p).2.1.missions_completed = p.missions_completed ++ [m.name] ∧
      (npcTalk ts n p).2.1.money = p.money + m.reward_money ∧
      (m.name ∉ p.missions_completed →
        (npcTalk ts n p).2.1.missions_completed.count m.name = 1)) := by
  constructor
  · intro h
    unfold npcTalk
    by_cases hbs : n.bigSmoke
    · simp only [hbs, if_true]
      unfold bigSmokeTalk
      split
      · simp [h]
      · rfl
    · simp only [hbs, if_false]
      unfold npcTalkPlain
      cases hmo : n.mission_offered <;> simp [hmo, h]
  · intro m hbs hnc hmo hobj
    have hred : npcTalk ts n p =
        ({ n with mission_completed := true },
         { m.complete p with
            missions_completed := (m.complete p).missions_completed ++ [m.name],
            current_mission := none }, ts) := by
      unfold npcTalk
      rw [hbs]
      have hic : m.is_completed p = true := hobj
      simp only [Bool.false_eq_true, if_false]
      unfold npcTalkPlain
      rw [hmo, hnc]
      simp only [hic, if_true, eq_self_iff_true]
      rw [← hmo, hbs]
    rw [hred]
    refine ⟨rfl, ?_, ?_, ?_⟩
    · simp [mission_complete_missions]
    · show (m.complete p).money = p.money + m.reward_money
      exact mission_complete_money m p
    · intro hnm
      simp [mission_complete_missions, List.count_append]
      exact List.count_eq_zero.mpr hnm

end SA

namespace SA

/-- Sweet with his mission already completed. -/
def c8NPC : NPC := { sweetNPC with mission_completed := true }

/-- A player holding the Pistol, so Sweet's objective holds. -/
def c8Player : Player :=
  { playerInit 6 5 with inventory := [mkItem 2 2 "Pistol" "A basic handgun." 75 (.weapon 15)] }

/-- C8 witness: both parts of the idempotence statement at Sweet's
mission — a completed NPC's talk changes nothing, and the completing
talk appends the name exactly once and pays exactly once. -/
theorem c8_completion_idempotent_witness :
    npcTalk ["yes"] c8NPC c8Player = (c8NPC, c8Player, ["yes"]) ∧
    (npcTalk [] sweetNPC c8Player).1.mission_completed = true ∧
    (npcTalk [] sweetNPC c8Player).2.1.missions_completed =
      c8Player.missions_completed ++ [sweetMission.name] ∧
    (npcTalk [] sweetNPC c8Player).2.1.money = c8Player.money + sweetMission.reward_money ∧
    (npcTalk [] sweetNPC c8Player).2.1.missions_completed.count sweetMission.name = 1 :=
  ⟨(c8_completion_idempotent ["yes"] c8NPC c8Player).1 rfl,
   ((c8_completion_idempotent [] sweetNPC c8Player).2 sweetMission rfl rfl rfl rfl).1,
   ((c8_completion_idempotent [] sweetNPC c8Player).2 sweetMission rfl rfl rfl rfl).2.1,
   ((c8_completion_idempotent [] sweetNPC c8Player).2 sweetMission rfl rfl rfl rfl).2.2.1,
   ((c8_completion_idempotent [] sweetNPC c8Player).2 sweetMission rfl rfl rfl rfl).2.2.2
     (by decide)⟩

end SA

namespace SA

/-- Whatever `talk` does, the active-mission slot afterwards is the old
one, cleared, or the NPC's offered mission — never anything else. -/
theorem npcTalk_current_mission (ts : List String) (n : NPC) (p : Player) (m : Mission)
    (hmo : n.mission_offered = some m) :
    (npcTalk ts n p).2.1.current_mission = p.current_mission ∨
    (npcTalk ts n p).2.1.current_mission = none ∨
    (npcTalk ts n p).2.1.current_mission = some m := by
  unfold npcTalk npcTalkPlain bigSmokeTalk
  rw [hmo]
  (repeat' split) <;> simp_all

/-- `talk` with no offered mission is plain dialogue: a no-op on the
state. -/
theorem npcTalk_no_mission (ts : List String) (n : NPC) (p : Player)
    (hmo : n.mission_offered = none) :
    npcTalk ts n p = (n, p, ts) := by
  unfold npcTalk npcTalkPlain bigSmokeTalk
  rw [hmo]
  (repeat' split) <;> simp_all

end SA

namespace SA

/-- C7: the prerequisite gate of the interact handler. First conjunct:
with any prerequisite missing, the whole interaction is rejected with
no state change (and the scan flag stays false). Second conjunct: if
the interaction changed the active-mission slot to some mission, that
mission is the NPC's offered one and every one of its prerequisites
was already completed. Third conjunct: the accept path of a regular
NPC — prerequisites met, objective not yet met, no active mission,
player answers yes — installs the offered mission as the unique active
mission. -/
theorem c7_prereq_gate (ts : List String) (n : NPC) (p : Player) :
    (∀ m, n.mission_offered = some m →
      m.prerequisite_missions.all (fun pre => p.missions_completed.contains pre) = false →
      npcGatedInteract ts n p = (n, p, ts, false)) ∧
    (∀ m2, (npcGatedInteract ts n p).2.1.current_mission = some m2 →
      p.current_mission ≠ some m2 →
      ∃ m, n.mission_offered = some m ∧ m2 = m ∧
        m.prerequisite_missions.all (fun pre => p.missions_completed.contains pre) = true) ∧
    (∀ m choice rest, n.bigSmoke = false → n.mission_completed = false →
      n.mission_offered = some m →
      m.prerequisite_missions.all (fun pre => p.missions_completed.contains pre) = true →
      m.is_completed p = false → p.current_mission = none →
      ts = choice :: rest → strLower choice = "yes" →
      (npcGatedInteract ts n p).2.1.current_mission = some m) := by
  refine ⟨?_, ?_, ?_⟩
  · intro m hmo hall
    have hG : npcGatedInteract ts n p =
        (if (m.prerequisite_missions.all fun pre => p.missions_completed.contains pre) = true
         then ((npcTalk ts n p).1, (npcTalk ts n p).2.1, (npcTalk ts n p).2.2, true)
         else (n, p, ts, false)) := by
      unfold npcGatedInteract
      rw [hmo]
    have hne2 : ¬ ((m.prerequisite_missions.all
        fun pre => p.missions_completed.contains pre) = true) := by
      rw [hall]
      simp
    rw [hG, if_neg hne2]
  · intro m2 hcm hne
    cases hmo : n.mission_offered with
    | none =>
        have hG : npcGatedInteract ts n p =
            ((npcTalk ts n p).1, (npcTalk ts n p).2.1, (npcTalk ts n p).2.2, true) := by
          unfold npcGatedInteract
          rw [hmo]
        rw [hG, npcTalk_no_mission ts n p hmo] at hcm
        exact absurd hcm hne
    | some m =>
        have hG : npcGatedInteract ts n p =
            (if (m.prerequisite_missions.all fun pre => p.missions_completed.contains pre) = true
             then ((npcTalk ts n p).1, (npcTalk ts n p).2.1, (npcTalk ts n p).2.2, true)
             else (n, p, ts, false)) := by
          unfold npcGatedInteract
          rw [hmo]
        rw [hG] at hcm
        by_cases hall : (m.prerequisite_missions.all
            fun pre => p.missions_completed.contains pre) = true
        · rw [if_pos hall] at hcm
          rcases npcTalk_current_mission ts n p m hmo with h | h | h
          · rw [show ((npcTalk ts n p).1, (npcTalk ts n p).2.1,
                (npcTalk ts n p).2.2, true).2.1 = (npcTalk ts n p).2.1 from rfl, h] at hcm
            exact absurd hcm hne
          · rw [show ((npcTalk ts n p).1, (npcTalk ts n p).2.1,
                (npcTalk ts n p).2.2, true).2.1 = (npcTalk ts n p).2.1 from rfl, h] at hcm
            exact absurd hcm.symm (by simp)
          · rw [show ((npcTalk ts n p).1, (npcTalk ts n p).2.1,
                (npcTalk ts n p).2.2, true).2.1 = (npcTalk ts n p).2.1 from rfl, h] at hcm
            exact ⟨m, rfl, by injection hcm.symm, hall⟩
        · rw [if_neg hall] at hcm
          exact absurd hcm hne
  · intro m choice rest hbs hnc hmo hall hic hcm hts hyes
    have hG : npcGatedInteract ts n p =
        (if (m.prerequisite_missions.all fun pre => p.missions_completed.contains pre) = true
         then ((npcTalk ts n p).1, (npcTalk ts n p).2.1, (npcTalk ts n p).2.2, true)
         else (n, p, ts, false)) := by
      unfold npcGatedInteract
      rw [hmo]
    rw [hG, if_pos hall]
    show (npcTalk ts n p).2.1.current_mission = some m
    unfold npcTalk
    rw [hbs]
    simp only [Bool.false_eq_true, if_false]
    unfold npcTalkPlain
    rw [hmo, hnc, hts]
    simp only [hic, hcm, hyes, Bool.false_eq_true, if_false, if_true,
      eq_self_iff_true, beq_self_eq_true]

end SA

namespace SA

/-- C7 witness: the gate rejects Ryder before Sweet's mission is done;
accepting Sweet's mission from a fresh player installs it as the
active mission, and the change certifies its prerequisites were met. -/
theorem c7_prereq_gate_witness :
    npcGatedInteract ["yes"] ryderNPC (playerInit 6 5) =
      (ryderNPC, playerInit 6 5, ["yes"], false) ∧
    (∃ m, sweetNPC.mission_offered = some m ∧ sweetMission = m ∧
      m.prerequisite_missions.all
        (fun pre => (playerInit 6 5).missions_completed.contains pre) = true) ∧
    (npcGatedInteract ["yes"] sweetNPC (playerInit 6 5)).2.1.current_mission =
      some sweetMission :=
  ⟨(c7_prereq_gate ["yes"] ryderNPC (playerInit 6 5)).1 ryderMission rfl rfl,
   (c7_prereq_gate ["yes"] sweetNPC (playerInit 6 5)).2.1 sweetMission (by rfl)
     (fun h => Option.noConfusion h),
   (c7_prereq_gate ["yes"] sweetNPC (playerInit 6 5)).2.2 sweetMission "yes" [] rfl rfl rfl
     rfl rfl rfl rfl rfl⟩

end SA

namespace SA

/-- The walking move never touches the loop flag. -/
theorem playerWalkMove_running (g : Game) (dx dy : Int) :
    (playerWalkMove g dx dy).1.running = g.running := by
  unfold playerWalkMove
  dsimp only
  split
  · rfl
  · split <;> rfl

/-- The vehicle move never touches the loop flag. -/
theorem vehicleMoveAt_running (g : Game) (vi : Nat) (dx dy : Int) :
    (vehicleMoveAt g vi dx dy).1.running = g.running := by
  unfold vehicleMoveAt
  dsimp only
  split
  · split
    · rfl
    · split
      · rfl
      · split <;> rfl
  · rfl

/-- `Player.move` never touches the loop flag. -/
theorem playerMove_running (g : Game) (dx dy : Int) :
    (playerMove g dx dy).1.running = g.running := by
  unfold playerMove
  split
  · split
    · exact vehicleMoveAt_running ..
    · rfl
  · exact playerWalkMove_running ..

/-- The shop menu loop only reads and writes the player. -/
theorem interactScan_running (ts : List String) (g : Game) :
    ∀ l, (interactScan ts g l).1.running = g.running := by
  intro l
  induction l with
  | nil => rfl
  | cons d rest ih =>
      unfold interactScan
      dsimp only
      split
      · split
        · rfl
        · exact ih
      · rfl
      · rfl
      · split
        · split
          · rfl
          · exact ih
        · exact ih
      · exact ih

/-- The use-item menu only reads and writes the player. -/
theorem useItemHandler_running (ts : List String) (g : Game) :
    (useItemHandler ts g).1.running = g.running := by
  unfold useItemHandler
  dsimp only
  (repeat' split) <;> rfl

/-- The attack handler only writes the player and the object list. -/
theorem attackHandler_running (g : Game) :
    (attackHandler g).running = g.running := by
  unfold attackHandler
  dsimp only
  (repeat' split) <;> rfl

/-- The exit-vehicle handler only writes the player and the vehicle. -/
theorem exitVehicleHandler_running (g : Game) :
    (exitVehicleHandler g).running = g.running := by
  unfold exitVehicleHandler
  dsimp only
  (repeat' split) <;> rfl

/-- `load_game` always yields the fresh world, whose flag is up. -/
theorem loadGame_running (r : Except FileErr SaveDoc) (g : Game) :
    (loadGame r g).running = true := by
  rw [loadGame_eq_fresh]
  rfl

/-- `handle_input` lowers the loop flag exactly on the quit command
(every other command leaves the loop runnable: the handlers only touch
the player and the object list, and a load installs the fresh, running
world). -/
theorem handleInput_running (env : Env) (ts : List String) (key : String) (g : Game)
    (h : g.running = true) :
    (handleInput env ts key g).running = !(key == "q") := by
  by_cases h1 : key = "e"
  · subst h1
    show ((interactScan ts g neighborOffsets).1.running) = !("e" == "q")
    rw [interactScan_running, h]
    rfl
  by_cases h2 : key = "x"
  · subst h2
    show ((exitVehicleHandler g).running) = !("x" == "q")
    rw [exitVehicleHandler_running, h]
    rfl
  by_cases h3 : key = "u"
  · subst h3
    show ((useItemHandler ts g).1.running) = !("u" == "q")
    rw [useItemHandler_running, h]
    rfl
  by_cases h4 : key = "f"
  · subst h4
    show ((attackHandler g).running) = !("f" == "q")
    rw [attackHandler_running, h]
    rfl
  by_cases h5 : key = "v"
  · subst h5
    show (g.running) = !("v" == "q")
    rw [h]
    rfl
  by_cases h6 : key = "l"
  · subst h6
    show ((loadGame env.file g).running) = !("l" == "q")
    rw [loadGame_running]
    rfl
  by_cases h7 : key = "q"
  · subst h7
    rfl
  by_cases h8 : key = "w"
  · subst h8
    show ((playerMove g 0 (-1)).1.running) = !("w" == "q")
    rw [playerMove_running, h]
    rfl
  by_cases h9 : key = "a"
  · subst h9
    show ((playerMove g (-1) 0).1.running) = !("a" == "q")
    rw [playerMove_running, h]
    rfl
  by_cases h10 : key = "s"
  · subst h10
    show ((playerMove g 0 1).1.running) = !("s" == "q")
    rw [playerMove_running, h]
    rfl
  by_cases h11 : key = "d"
  · subst h11
    show ((playerMove g 1 0).1.running) = !("d" == "q")
    rw [playerMove_running, h]
    rfl
  -- all eleven commands ruled out: the invalid-input branch
  unfold handleInput
  rw [if_neg (by simp [h1]), if_neg (by simp [h2]), if_neg (by simp [h3]),
      if_neg (by simp [h4]), if_neg (by simp [h5]), if_neg (by simp [h6]),
      if_neg (by simp [h7]), if_neg (by simp [h8]), if_neg (by simp [h9]),
      if_neg (by simp [h10]), if_neg (by simp [h11])]
  show g.running = !(key == "q")
  rw [h]
  cases hq : (key == "q") with
  | false => rfl
  | true => exact absurd (by simpa using hq) h7

end SA

namespace SA

/-- An enemy step only writes the object list. -/
theorem enemyTryStepAt_running (g : Game) (si : Nat) (dx dy : Int) {g2 : Game}
    (h : enemyTryStepAt g si dx dy = some g2) : g2.running = g.running := by
  unfold enemyTryStepAt at h
  split at h
  · dsimp only at h
    split at h
    · split at h
      · exact absurd h (by simp)
      · have hrec := Option.some.inj h
        rw [← hrec]
    · exact absurd h (by simp)
  · exact absurd h (by simp)

/-- Random wandering only writes the object list. -/
theorem moveRandomly_running (g : Game) (si : Nat) :
    ∀ cands, (moveRandomly g si cands).1.running = g.running := by
  intro cands
  induction cands with
  | nil => rfl
  | cons d rest ih =>
      unfold moveRandomly
      cases h : enemyTryStepAt g si d.1 d.2 with
      | none => simpa using ih
      | some g2 => simpa using enemyTryStepAt_running g si d.1 d.2 h

/-- Greedy pursuit only writes the object list. -/
theorem moveTowards_running (g : Game) (si : Nat) (tx ty : Int) :
    (moveTowards g si tx ty).1.running = g.running := by
  unfold moveTowards
  split
  · dsimp only
    split
    · rename_i g2 h
      simpa using enemyTryStepAt_running g si _ _ h
    · rfl
  · rfl

/-- One enemy turn never touches the loop flag. -/
theorem enemyTakeTurn_running (env : Env) (ctr : Nat) (g : Game) (si : Nat) :
    (enemyTakeTurn env ctr g si).1.running = g.running := by
  unfold enemyTakeTurn
  (repeat' split) <;> (try dsimp only) <;> (repeat' split) <;>
    first
      | rfl
      | exact moveRandomly_running ..
      | exact moveTowards_running ..

/-- The whole enemy pass never touches the loop flag. -/
theorem enemyTurnsAux_running (env : Env) :
    ∀ (l : List String) (g : Game) (ctr : Nat),
      (enemyTurnsAux env l (g, ctr)).1.running = g.running := by
  intro l
  induction l with
  | nil => intro g ctr; rfl
  | cons k rest ih =>
      intro g ctr
      unfold enemyTurnsAux
      split
      · rename_i i k2 e heq
        split
        · have h1 := ih (enemyTakeTurn env ctr g i).1 (enemyTakeTurn env ctr g i).2
          rw [@Prod.mk.eta _ _ (enemyTakeTurn env ctr g i)] at h1
          rw [h1, enemyTakeTurn_running]
        · exact ih g ctr
      · exact ih g ctr

end SA

namespace SA

/-- A fold whose step preserves the loop flag preserves it overall. -/
theorem foldl_running {α : Type} (f : Game → α → Game)
    (hf : ∀ g a, (f g a).running = g.running) :
    ∀ (l : List α) (g : Game), (l.foldl f g).running = g.running := by
  intro l
  induction l with
  | nil => intro g; rfl
  | cons a t ih =>
      intro g
      rw [List.foldl_cons, ih, hf]

/-- Police spawning only appends to the object list. -/
theorem spawnPolice_running (env : Env) (ctr : Nat) (g : Game) :
    (spawnPolice env ctr g).1.running = g.running := by
  unfold spawnPolice
  split
  · dsimp only
    apply foldl_running
    intro g2 a
    split <;> rfl
  · rfl

/-- The periodic phase only writes the player and the object list. -/
theorem periodicPhase_running (env : Env) (ctr : Nat) (g : Game) :
    (periodicPhase env ctr g).1.running = g.running := by
  unfold periodicPhase
  dsimp only
  (repeat' split) <;>
    first
      | rfl
      | exact spawnPolice_running ..

/-- Whether a loop iteration is an exit (break on defeat, or falling
out of the `while` condition after a quit). -/
def StepResult.isExit : StepResult → Bool
  | .next _ => false
  | _ => true

end SA

namespace SA

/-- C5 amended: one loop iteration entered with the loop flag up ends
the loop exactly when the defeat check fires (health already 0 at the
top of the body) or the command was `q`; no other condition — in
particular no mission-completion state — ends the loop. -/
theorem c5_loop_exit_characterization (env : Env) (ts : List String) (action : String)
    (ctr : Nat) (g : Game) (hrun : g.running = true) :
    (gameStep env ts action ctr g).isExit = true ↔
      (g.player.health ≤ 0 ∨ strLower action = "q") := by
  unfold gameStep
  by_cases hh : g.player.health ≤ 0
  · rw [if_pos hh]
    simp [StepResult.isExit, hh]
  · rw [if_neg hh]
    dsimp only
    have hrun1 : (periodicPhase env ctr g).1.running = true := by
      rw [periodicPhase_running, hrun]
    have h2 := handleInput_running env ts (strLower action) (periodicPhase env ctr g).1 hrun1
    have h3 := enemyTurnsAux_running env
      (handleInput env ts (strLower action) (periodicPhase env ctr g).1).enemyKeys
      (handleInput env ts (strLower action) (periodicPhase env ctr g).1)
      (periodicPhase env ctr g).2
    rw [h3, h2]
    by_cases hq : strLower action = "q"
    · simp [hq, StepResult.isExit]
    · simp [StepResult.isExit, hh, hq]

/-- A reachable-shaped state with all three chained missions completed,
full health, and the loop flag up. -/
def cg5 : Game :=
  { player := { playerInit 40 12 with
      missions_completed := [sweetMissionName, ryderMissionName, bigSmokeMissionName] },
    objects := [.mplayer], game_time := 1, running := true,
    missions := freshGame.missions }

/-- C5 counterexample: with Sweet's, Ryder's and Big Smoke's missions
all in the completed set, a loop iteration (here on a movement command)
does not exit — `game_loop` has no victory check, so the claimed
victory termination path does not exist. -/
theorem c5_victory_does_not_end_loop :
    cg5.player.missions_completed = [sweetMissionName, ryderMissionName, bigSmokeMissionName] ∧
    cg5.player.health = 100 ∧ cg5.running = true ∧
    (gameStep envNone [] "w" 0 cg5).isExit = false :=
  ⟨rfl, rfl, rfl, rfl⟩

/-- C5 witness: the characterization applied at the fresh world with
the quit command. -/
theorem c5_loop_exit_characterization_witness :
    (gameStep envNone [] "q" 0 freshGame).isExit = true :=
  (c5_loop_exit_characterization envNone [] "q" 0 freshGame rfl).mpr (Or.inr rfl)

end SA

namespace SA

/-- C3 witness: a concrete unreadable-file outcome applied to a
running world yields exactly the fresh world. -/
theorem c3_unreadable_file_fresh_world_witness :
    loadGame (.error .jsonDecode) freshGame = freshGame :=
  c3_unreadable_file_fresh_world.1 .jsonDecode freshGame

end SA
